import Mathlib

/-!
# Verification of the book_creator stage-orchestration engine

Shallow embedding, in Lean 4, of the parts of the `book_creator`
repository that the frozen claims are about:

* the provider-override merge (`services/orchestrator/app/flows.py`,
  `writing/engine.py`, `fact_mapping/engine.py`, `guidelines/engine.py`;
  the four `_merge_overrides` copies are textually identical),
* the budget admission gate (`apps/api/app/main.py`,
  `_guard_project_budget`),
* the response cache key computation (`services/orchestrator/app/cache.py`)
  and the prompt trimming helper (`services/orchestrator/app/context.py`),
* the fact-mapping coverage computation
  (`services/orchestrator/app/fact_mapping/engine.py`),
* the guidelines final-metadata stamping
  (`services/orchestrator/app/guidelines/engine.py`),
* the writing engine (`services/orchestrator/app/writing/engine.py`),
  modelled end to end from parsed model outputs to the returned
  `WritingBatch`.

Modelling conventions:

* Python `None`-able values become `Option`.
* Python dictionaries (which preserve insertion order and have
  update-in-place assignment) become association lists with an
  order-preserving `alistSet`.
* Python UUIDs generated by `uuid4()` become values drawn from a `Nat`
  counter threaded through the computation; subchapter ids, which the
  engine manipulates in their `str` form, stay `String`.
* Python exceptions become `Except` errors; a `KeyError` caused by a
  model-returned subchapter id that is absent from the engine maps is a
  distinct error constructor from `ProviderResponseError`.
* `datetime` fields (`created_at`, `updated_at`, `last_updated`,
  `received_at`) are omitted: no claim mentions them.
-/

/-! ## Python truthiness helpers

The engine frequently uses `x or default` and `if x:` on strings and
integers; Python treats `None`, `""` and `0` as falsy. -/

/-- Python `if s:` for an optional string: `None` and `""` are falsy. -/
def pyTruthyStr : Option String → Bool
  | none => false
  | some s => s ≠ ""

/-- Python `a or b` on optional strings (used for `name`/`model` in
`_merge_overrides`): returns `a` when `a` is truthy, else `b` verbatim. -/
def pyOrStr (a b : Option String) : Option String :=
  if pyTruthyStr a then a else b

/-- Python `s or d` where `s` is an optional string and `d` a string
default, as in `payload.get("title") or "Untitled Manuscript"`. -/
def pyOrStrD (a : Option String) (d : String) : String :=
  match a with
  | none => d
  | some s => if s = "" then d else s

/-- Python `int(x or d)` where `x` is an optional integer, as in
`int(payload.get("cycle_count") or 3)`: `None` and `0` both fall back. -/
def pyOrIntD (a : Option Int) (d : Int) : Int :=
  match a with
  | none => d
  | some v => if v = 0 then d else v

/-- Python `str(x)` for the optional strings the payload carries:
`str(None)` is the literal string `"None"`. -/
def pyStr : Option String → String
  | none => "None"
  | some s => s

/-! ## Association lists standing for Python dicts (string keys) -/

/-- `m[k]` as an `Option`: first binding for `k`, if any. -/
def alistLookup {α : Type} (m : List (String × α)) (k : String) : Option α :=
  (m.find? (fun p => p.1 = k)).map (fun p => p.2)

/-- `m[k] = v`: replace the first binding for `k` in place, else append.
This matches Python dict assignment, which preserves insertion order. -/
def alistSet {α : Type} (m : List (String × α)) (k : String) (v : α) :
    List (String × α) :=
  match m with
  | [] => [(k, v)]
  | (k0, v0) :: rest =>
      if k0 = k then (k, v) :: rest else (k0, v0) :: alistSet rest k v

/-- `m[k] = f(m[k])`, failing like a Python `KeyError` when `k` is absent. -/
def alistModify {α : Type} (m : List (String × α)) (k : String) (f : α → α) :
    Option (List (String × α)) :=
  match m with
  | [] => none
  | (k0, v0) :: rest =>
      if k0 = k then some ((k0, f v0) :: rest)
      else (alistModify rest k f).map (fun r => (k0, v0) :: r)

/-! ## Provider overrides (`orchestrator/app/models.py`) and their merge

`ProviderOverride` is a pydantic model of all-optional fields. The
numeric field types (`float`, `int`) are modelled as `Rat` and `Int`;
the pydantic range constraints (`ge`/`le`) do not affect the merge. -/

structure ProviderOverride where
  name : Option String
  model : Option String
  temperature : Option Rat
  max_output_tokens : Option Int
  json_mode : Option Bool
  top_p : Option Rat
  reasoning_effort : Option String
  verbosity : Option String
  thinking_budget : Option Int
  include_thoughts : Option Bool
deriving DecidableEq, Repr

/-- Python `x if x is not None else y`, the merge rule used for every
field of `_merge_overrides` except `name` and `model`. -/
def pyIfNotNone {α : Type} (a b : Option α) : Option α :=
  match a with
  | some _ => a
  | none => b

/-- `_merge_overrides(stage_override, run_override)` — identical function
bodies in `flows.py:396`, `writing/engine.py:573`,
`fact_mapping/engine.py:199` and `guidelines/engine.py:209`. `name` and
`model` merge with Python `or` (so an empty string also falls through);
all other fields merge with `is not None` checks. -/
def _merge_overrides (stage_override run_override : Option ProviderOverride) :
    Option ProviderOverride :=
  match stage_override, run_override with
  | none, r => r
  | some s, none => some s
  | some s, some r =>
      some
        { name := pyOrStr s.name r.name
          model := pyOrStr s.model r.model
          temperature := pyIfNotNone s.temperature r.temperature
          max_output_tokens := pyIfNotNone s.max_output_tokens r.max_output_tokens
          json_mode := pyIfNotNone s.json_mode r.json_mode
          top_p := pyIfNotNone s.top_p r.top_p
          reasoning_effort := pyIfNotNone s.reasoning_effort r.reasoning_effort
          verbosity := pyIfNotNone s.verbosity r.verbosity
          thinking_budget := pyIfNotNone s.thinking_budget r.thinking_budget
          include_thoughts := pyIfNotNone s.include_thoughts r.include_thoughts }

/-! ## Budget admission gate (`apps/api/app/main.py:3623`) -/

/-- Outcome of `_guard_project_budget`: either the stage is admitted, or
an `HTTPException` with a distinct status code and detail is raised. -/
inductive BudgetGate
  | admitted
  | rejected (status_code : Nat) (detail : String)
deriving DecidableEq, Repr

/-- `_guard_project_budget`, given the fetched budget state
`(spend_limit_cents, total_cents)`: rejects with HTTP 402 iff a spend
limit is configured and the accumulated total meets or exceeds it. -/
def _guard_project_budget (spend_limit_cents : Option Int)
    (total_cents : Int) : BudgetGate :=
  match spend_limit_cents with
  | some limit =>
      if total_cents ≥ limit then
        BudgetGate.rejected 402
          "Project budget exhausted. Increase or disable the spend limit to continue."
      else BudgetGate.admitted
  | none => BudgetGate.admitted

/-! ## Prompt trimming (`orchestrator/app/context.py`) -/

/-- `summarise_prompt(prompt, token_limit)`: returns the possibly
trimmed prompt and whether trimming was applied. The token estimate is
`len(prompt) // 4`; the effective limit is `max(token_limit or 12000, 256)`
(`_DEFAULT_LIMIT` is read from the environment with default `12000`). -/
def summarise_prompt (prompt : String) (token_limit : Option Nat) :
    String × Bool :=
  if prompt = "" then (prompt, false)
  else
    let limit := max (match token_limit with
      | none => 12000
      | some l => if l = 0 then 12000 else l) 256
    let approx_tokens := prompt.length / 4
    if approx_tokens ≤ limit then (prompt, false)
    else
      let max_chars := limit * 4
      let head_length := max_chars / 2
      let tail_length := max_chars - head_length
      let head := (prompt.take head_length).trim
      let tail := (prompt.drop (prompt.length - tail_length)).trim
      let trimmed_prompt :=
        "[context trimmed to ~" ++ toString limit ++ " tokens]\n" ++
        "\n-- begin excerpt --\n" ++ head ++ "\n" ++ "\n...\n" ++ tail ++
        "\n-- end excerpt --"
      (trimmed_prompt, true)

/-! ## Response cache (`orchestrator/app/cache.py`)

The cache key is the SHA-256 hex digest of the canonical JSON
serialisation (`json.dumps(payload, sort_keys=True)`) of a fixed-shape
dictionary. The embedding works at the pre-hash level: a `CacheKey`
value is that canonical payload, so two keys are equal exactly when
their canonical serialisations are equal (the hash is injective on them
up to SHA-256 collisions, which the model abstracts away). The JSON
schema attached to a request is represented by its canonical
serialisation as produced by `StageCache._normalise`, making
`_normalise` the identity on this representation. -/

/-- `hashlib.sha256(text).hexdigest()`, modelled as an injective tag. -/
def _hash_text (text : String) : String :=
  "sha256:" ++ text

/-- The fields of `ProviderConfig` (`book_creator_providers/config.py`)
that the cache key reads; `api_key` and per-call default settings are
never hashed. -/
structure ProviderConfigModel where
  name : String
  model : String
deriving DecidableEq, Repr

/-- Trimming metadata written into `request.metadata["trimming"]`. -/
structure TrimmingMeta where
  applied : Bool
  limit_tokens : Option Nat
  original_hash : Option String
deriving DecidableEq, Repr

/-- `ProviderRequest` (`book_creator_providers/base.py`). The free-form
metadata bag is restricted to the two pieces the cache layer and the
engines write: a stage/agent tag list and the trimming record. -/
structure ProviderRequestModel where
  prompt : String
  system_prompt : Option String
  json_schema : Option String
  temperature : Option Rat
  max_output_tokens : Option Int
  top_p : Option Rat
  reasoning_effort : Option String
  verbosity : Option String
  thinking_budget : Option Int
  include_thoughts : Option Bool
  metadata_tags : List (String × String)
  metadata_trimming : Option TrimmingMeta
deriving DecidableEq, Repr

/-- `ProviderResponse` (`book_creator_providers/base.py`), minus the
`raw` backend payload and the `received_at` timestamp. -/
structure ProviderResponseModel where
  text : String
  model : String
  prompt_tokens : Int
  completion_tokens : Int
  cost_usd : Option Rat
  latency_ms : Option Rat
deriving DecidableEq, Repr

/-- The canonical cache-key payload built by `StageCache._build_key`:
a fixed-key dictionary serialised with `sort_keys=True` and hashed.
Stored unhashed here (see the section comment). -/
structure CacheKey where
  provider : String
  model : String
  stage : String
  prompt : String
  system : Option String
  json_schema : Option String
  temperature : Option Rat
  max_output_tokens : Option Int
  top_p : Option Rat
  reasoning_effort : Option String
  verbosity : Option String
  thinking_budget : Option Int
  include_thoughts : Option Bool
deriving DecidableEq, Repr

/-- `StageCache._build_key(provider_config, request, stage_name,
original_prompt)`. -/
def StageCache._build_key (provider_config : ProviderConfigModel)
    (request : ProviderRequestModel) (stage_name : String)
    (original_prompt : String) : CacheKey :=
  { provider := provider_config.name
    model := provider_config.model
    stage := stage_name
    prompt := original_prompt
    system := request.system_prompt
    json_schema := request.json_schema
    temperature := request.temperature
    max_output_tokens := request.max_output_tokens
    top_p := request.top_p
    reasoning_effort := request.reasoning_effort
    verbosity := request.verbosity
    thinking_budget := request.thinking_budget
    include_thoughts := request.include_thoughts }

/-- The value dictionary stored by `StageCache._encode_response`. -/
structure EncodedResponse where
  text : String
  model : String
  prompt_tokens : Int
  completion_tokens : Int
  cost_usd : Option Rat
  latency_ms : Option Rat
deriving DecidableEq, Repr

def StageCache._encode_response (response : ProviderResponseModel) :
    EncodedResponse :=
  { text := response.text
    model := response.model
    prompt_tokens := response.prompt_tokens
    completion_tokens := response.completion_tokens
    cost_usd := response.cost_usd
    latency_ms := response.latency_ms }

/-- `StageCache._decode_response`: rebuilds a `ProviderResponse` from a
stored entry (`latency_ms` of `None` decodes via `or 0.0` to `0.0`). -/
def StageCache._decode_response (payload : EncodedResponse) :
    ProviderResponseModel :=
  { text := payload.text
    model := payload.model
    prompt_tokens := payload.prompt_tokens
    completion_tokens := payload.completion_tokens
    cost_usd := payload.cost_usd
    latency_ms := some (match payload.latency_ms with
      | none => 0
      | some l => l) }

/-- The cache store: Redis with in-memory fallback, modelled as one
key-value list (connectivity failures and TTL expiry are time-dependent
behaviours outside the claims). -/
abbrev CacheStore : Type := List (CacheKey × EncodedResponse)

/-- Lookup in the store. -/
def cacheGet (store : CacheStore) (key : CacheKey) : Option EncodedResponse :=
  (store.find? (fun p => p.1 = key)).map (fun p => p.2)

/-- `StageCache.generate(provider_config, provider, request, stage_name)`.
The provider backend is a pure function argument; `prompt_limit` is the
cache instance's `CONTEXT_TOKEN_LIMIT`. Returns the response, the
updated store, and the request as the provider saw it (after any
trimming). -/
def StageCache.generate (provider_config : ProviderConfigModel)
    (providerGenerate : ProviderRequestModel → ProviderResponseModel)
    (request : ProviderRequestModel) (stage_name : String)
    (prompt_limit : Nat) (store : CacheStore) :
    ProviderResponseModel × CacheStore × ProviderRequestModel :=
  let original_prompt := request.prompt
  let cache_key :=
    StageCache._build_key provider_config request stage_name original_prompt
  match cacheGet store cache_key with
  | some cached => (StageCache._decode_response cached, store, request)
  | none =>
      let (trimmed_prompt, was_trimmed) :=
        summarise_prompt original_prompt (some prompt_limit)
      let request1 :=
        if was_trimmed then
          { request with
              prompt := trimmed_prompt
              metadata_trimming := some
                { applied := true
                  limit_tokens := some prompt_limit
                  original_hash := some (_hash_text original_prompt) } }
        else
          { request with
              metadata_trimming :=
                match request.metadata_trimming with
                | some t => some t
                | none => some { applied := false, limit_tokens := none, original_hash := none } }
      let response := providerGenerate request1
      (response,
       store ++ [(cache_key, StageCache._encode_response response)],
       request1)

/-! ## Fact mapping coverage (`orchestrator/app/fact_mapping/engine.py`)

`BookStructure`, `ResearchFact`, `SubchapterFactCoverage` and
`FactMappingBatch` are the pydantic models of
`book_creator_schemas/models/book.py`; UUID fields are carried in their
string form, since `_build_coverage` counts by `str(...)`. Fields not
read by the engine (timestamps, citation details, narrative text) are
kept only where cheap. -/

structure SubchapterModel where
  id : String
  title : String
  summary : String
  order : Int
deriving DecidableEq, Repr

structure ChapterModel where
  id : String
  title : String
  summary : String
  order : Int
  subchapters : List SubchapterModel
deriving DecidableEq, Repr

structure BookStructureModel where
  project_id : String
  version : Int
  chapters : List ChapterModel
deriving DecidableEq, Repr

structure ResearchFactModel where
  id : String
  subchapter_id : String
  summary : String
  detail : String
deriving DecidableEq, Repr

structure SubchapterFactCoverage where
  subchapter_id : String
  fact_count : Nat
deriving DecidableEq, Repr

structure FactMappingBatch where
  project_id : String
  facts : List ResearchFactModel
  coverage : List SubchapterFactCoverage
deriving DecidableEq, Repr

/-- The `counts` dictionary of `_build_coverage`: facts counted by
`str(fact.subchapter_id)`. -/
def coverageCounts (facts : List ResearchFactModel) : List (String × Nat) :=
  facts.foldl
    (fun counts fact =>
      alistSet counts fact.subchapter_id
        ((alistLookup counts fact.subchapter_id).getD 0 + 1))
    []

/-- `_build_coverage(structure, mapping)`: one record per subchapter of
the input structure, in structure order, counting final-batch facts. -/
def _build_coverage (struct : BookStructureModel)
    (mapping : FactMappingBatch) : List SubchapterFactCoverage :=
  let counts := coverageCounts mapping.facts
  (struct.chapters.map (fun chapter =>
    chapter.subchapters.map (fun subchapter =>
      ({ subchapter_id := subchapter.id
         fact_count := (alistLookup counts subchapter.id).getD 0 }
        : SubchapterFactCoverage)))).flatten

/-- The final step of `generate_fact_mapping` (line 111): the parsed
final mapping has its `coverage` field overwritten with the locally
computed recount, whatever the model returned there. -/
def finalizeFactMapping (struct : BookStructureModel)
    (final_mapping : FactMappingBatch) : FactMappingBatch :=
  { final_mapping with coverage := _build_coverage struct final_mapping }

/-- All subchapters of a structure, in order, as `_build_coverage`
iterates them. -/
def structureSubchapters (struct : BookStructureModel) :
    List SubchapterModel :=
  (struct.chapters.map (fun chapter => chapter.subchapters)).flatten

/-! ## Creative guidelines (`orchestrator/app/guidelines/engine.py`) -/

/-- `AgentRole` (`book_creator_schemas/enums.py`), the roles the
modelled engines stamp into artifacts. -/
inductive AgentRole
  | writer_initial
  | writing_critic_i
  | writing_implementation_i
  | writing_critic_ii
  | writing_implementation_ii
  | writing_critic_iii
  | writing_implementation_iii
  | creative_director_assistant
  | creative_director_critic
  | creative_director_final
deriving DecidableEq, Repr

/-- `CreativeGuideline` (`book_creator_schemas/models/book.py`). The
content lists are kept in reduced form (`objectives`, `narrative_voice`)
— `_ensure_final_metadata` copies every content field through unchanged,
so one representative of each shape suffices. The `project_id` is
carried as the string the engine assigns. -/
structure CreativeGuideline where
  id : String
  project_id : String
  subchapter_id : String
  objectives : List String
  narrative_voice : Option String
  status : String
  created_by : AgentRole
  version : Int
deriving DecidableEq, Repr

structure CreativeGuidelineBatch where
  project_id : String
  version : Int
  summary : Option String
  readiness : String
  guidelines : List CreativeGuideline
deriving DecidableEq, Repr

/-- `_ensure_final_metadata(batch, project_id, target_version)`
(`guidelines/engine.py:175`): stamps each guideline and the batch.
`project_id or guideline.project_id` keeps the model-echoed id when the
engine-side `project_id` string is empty (falsy). Transcribed for
reference; unreachable in this source — see
`generate_creative_guidelines` below. -/
def _ensure_final_metadata (batch : CreativeGuidelineBatch)
    (project_id : String) (target_version : Int) : CreativeGuidelineBatch :=
  let final_guidelines := batch.guidelines.map (fun guideline =>
    { guideline with
        project_id := if project_id = "" then guideline.project_id else project_id
        version := target_version
        status := "final"
        created_by := AgentRole.creative_director_final })
  { batch with
      project_id := if project_id = "" then batch.project_id else project_id
      version := target_version
      guidelines := final_guidelines
      readiness := "ready" }

/-- The guidelines-engine payload fields that decide final metadata:
`payload.get("project_id", "")` and `int(payload.get("target_version")
or 1)` (`guidelines/engine.py:55` and `:63`). Prompt-only fields
(title, synopsis, persona, structure, facts, emotional layer,
preferences) are not modelled. -/
structure GuidelinesPayload where
  project_id : Option String
  target_version : Option Int
deriving DecidableEq, Repr

/-- Python runtime errors that abort a stage before its first provider
call. -/
inductive PyRuntimeError
  | typeError (msg : String)
deriving DecidableEq, Repr

/-- `generate_creative_guidelines` (`guidelines/engine.py:35`). The
function body cannot run to completion for any input: all three agent
calls pass three positional arguments — `_request_batch(provider,
prompt, effective_override)` at lines 65 and 92, `_request_text(
provider, prompt, effective_override)` at line 84 — to helpers defined
with four required parameters `(provider, provider_config, prompt,
override)` (lines 121-126 and 146-152). The first such call, at line
65, therefore raises `TypeError` on every run, before any provider
call, any parsing, and the `_ensure_final_metadata` stamping at line
112. (Were the arity fixed, line 140 would still raise `NameError`:
the module never imports `generate_with_cache`.) The override merge at
line 42 completes first but has no observable effect. The run is
modelled as the failing computation it is. -/
def generate_creative_guidelines (payload : GuidelinesPayload)
    (run_override stage_override : Option ProviderOverride) :
    Except PyRuntimeError CreativeGuidelineBatch :=
  Except.error (PyRuntimeError.typeError
    "_request_batch() missing 1 required positional argument: override")

/-! ## Writing engine (`orchestrator/app/writing/engine.py`)

The engine is modelled from the point where provider responses have
been parsed and schema-validated: the writer pass output, and one
`(CritiqueBatch, ImplementationBatch)` pair per executed cycle, are
inputs. A run that would need more provider calls than outputs are
supplied fails with a distinct error (standing for a failed provider
call, which aborts the stage in the source as well). Prompt assembly
(`WRITING_*_PROMPT.format(...)`) and the cost/critique aggregation of
`WritingResult` are not modelled; every claim is about the returned
`WritingBatch`. Generated UUIDs are drawn from a `Nat` counter. -/

/-- `CritiqueSeverity` (`book_creator_schemas/enums.py`). -/
inductive CritiqueSeverity
  | info
  | warning
  | error
deriving DecidableEq, Repr

/-- `DraftFeedbackItem` (`book_creator_schemas/models/book.py:309`). -/
structure DraftFeedbackItem where
  id : Nat
  message : String
  severity : CritiqueSeverity
  category : Option String
  rationale : Option String
  addressed : Bool
  addressed_in_iteration : Option Nat
deriving DecidableEq, Repr

/-- `DraftIteration` (`book_creator_schemas/models/book.py:335`). -/
structure DraftIteration where
  id : Nat
  project_id : Nat
  subchapter_id : String
  cycle : Nat
  role : AgentRole
  content : String
  summary : Option String
  word_count : Option Nat
  feedback : List DraftFeedbackItem
deriving DecidableEq, Repr

/-- `SubchapterDraftState` (`book_creator_schemas/models/book.py:358`);
`status` ranges over the literals `draft`, `in_review`, `ready`. -/
structure SubchapterDraftState where
  subchapter_id : String
  title : String
  chapter_title : Option String
  order_label : Option String
  current_cycle : Nat
  status : String
  iterations : List DraftIteration
  outstanding_feedback : List DraftFeedbackItem
  final_iteration_id : Option Nat
  final_word_count : Option Nat
deriving DecidableEq, Repr

/-- `WritingBatch` (`book_creator_schemas/models/book.py:377`). -/
structure WritingBatch where
  project_id : Nat
  cycle_count : Nat
  readiness : String
  summary : Option String
  subchapters : List SubchapterDraftState
  total_word_count : Option Nat
deriving DecidableEq, Repr

/-- `WriterDraftEntry` (`writing/engine.py:34`), post-validation. -/
structure WriterDraftEntry where
  subchapter_id : String
  content : String
  summary : Option String
  word_count : Option Nat
deriving DecidableEq, Repr

/-- `WriterDraftBatch` (`writing/engine.py:43`). -/
structure WriterDraftBatch where
  subchapters : List WriterDraftEntry
  overview : Option String
deriving DecidableEq, Repr

/-- `CritiqueFeedback` (`writing/engine.py:50`): note it has no id
field — feedback ids can only be assigned by the engine. -/
structure CritiqueFeedback where
  message : String
  severity : CritiqueSeverity
  category : Option String
  rationale : Option String
deriving DecidableEq, Repr

/-- `CritiqueEntry` (`writing/engine.py:59`). -/
structure CritiqueEntry where
  subchapter_id : String
  overview : String
  feedback : List CritiqueFeedback
deriving DecidableEq, Repr

/-- `CritiqueBatch` (`writing/engine.py:67`). -/
structure CritiqueBatch where
  subchapters : List CritiqueEntry
  summary : Option String
deriving DecidableEq, Repr

/-- `ImplementationEntry` (`writing/engine.py:74`); `resolved_feedback`
carries the UUIDs the implementer claims to have resolved. -/
structure ImplementationEntry where
  subchapter_id : String
  content : String
  summary : Option String
  word_count : Option Nat
  resolved_feedback : List Nat
  notes : Option String
deriving DecidableEq, Repr

/-- `ImplementationBatch` (`writing/engine.py:85`). -/
structure ImplementationBatch where
  subchapters : List ImplementationEntry
  summary : Option String
deriving DecidableEq, Repr

/-- One record of the payload's `subchapters` metadata list
(`writing/engine.py:139` and `:154`). -/
structure SubchapterMetaItem where
  id : Option String
  title : Option String
  chapter_title : Option String
  order_label : Option String
  chapter_order : Int
  sub_order : Int
deriving DecidableEq, Repr

/-- The value stored in `meta_lookup` (`writing/engine.py:159`). -/
structure SubMeta where
  title : String
  chapter_title : Option String
  order_label : Option String
  chapter_order : Int
  sub_order : Int
deriving DecidableEq, Repr

/-- The writing payload fields the modelled computation reads.
`project_id` holds the result of `UUID(str(payload.get("project_id")))`
when that parse succeeds, `none` when the raw value is missing or not
parseable as a UUID (`writing/engine.py:126`). Prompt-only fields
(title, synopsis, guidelines, facts, emotional layer, persona,
structure, notes, previous batch) are not modelled. -/
structure WritingPayload where
  project_id : Option Nat
  subchapters : List SubchapterMetaItem
  cycle_count : Option Int
deriving DecidableEq, Repr

/-- Errors aborting a writing run: `ProviderResponseError` raised by
the engine, a Python `KeyError` on an engine dict (raised when a critic
or implementer names a subchapter id absent from the run maps), or a
failed provider call (no further model output available). -/
inductive EngineError
  | providerResponse (msg : String)
  | keyError (key : String)
  | providerFailure
deriving DecidableEq, Repr

/-- Run-local mutable state of `generate_writing_batch`: the
`iterations_map`, `feedback_map`, `current_drafts`, `word_counts`
dictionaries, the uuid4 counter and the accumulated summary lists. -/
structure RunState where
  iterations_map : List (String × List DraftIteration)
  feedback_map : List (String × List DraftFeedbackItem)
  current_drafts : List (String × String)
  word_counts : List (String × Option Nat)
  fresh : Nat
  summary_parts : List String
  critic_summaries : List String
deriving DecidableEq, Repr

/-- `meta_lookup` construction (`writing/engine.py:154`): an
insertion-ordered dict keyed by `str(item.get("id"))`, skipping falsy
(empty) keys; note Python renders a missing id as the truthy string
`"None"`. Defaults mirror the source (`title or "Untitled Subchapter"`,
`get("chapter_order", 0)`). -/
def build_meta_lookup (items : List SubchapterMetaItem) :
    List (String × SubMeta) :=
  items.foldl
    (fun acc item =>
      let sub_id := pyStr item.id
      if sub_id = "" then acc
      else
        alistSet acc sub_id
          { title := pyOrStrD item.title "Untitled Subchapter"
            chapter_title := item.chapter_title
            order_label := item.order_label
            chapter_order := item.chapter_order
            sub_order := item.sub_order })
    []

/-- Sorted-string helper for the missing-subchapters error message
(Python `sorted(missing)`); insertion sort with lexicographic `≤`. -/
def insertString (x : String) : List String → List String
  | [] => [x]
  | y :: ys => if x ≤ y then x :: y :: ys else y :: insertString x ys

def sortStrings : List String → List String
  | [] => []
  | x :: xs => insertString x (sortStrings xs)

/-- Stable-sort comparison used for `sorted_meta`
(`writing/engine.py:406`): key `(chapter_order, sub_order)`,
lexicographic. -/
def metaLe (a b : String × SubMeta) : Bool :=
  if a.2.chapter_order < b.2.chapter_order then true
  else if a.2.chapter_order = b.2.chapter_order then
    decide (a.2.sub_order ≤ b.2.sub_order)
  else false

/-- Stable insertion sort modelling Python `sorted` with the meta key:
an element is placed before the existing elements its key ties with
only when it preceded them, which the fold from the right preserves. -/
def insertMeta (x : String × SubMeta) :
    List (String × SubMeta) → List (String × SubMeta)
  | [] => [x]
  | y :: ys => if metaLe x y then x :: y :: ys else y :: insertMeta x ys

def sortMeta : List (String × SubMeta) → List (String × SubMeta)
  | [] => []
  | x :: xs => insertMeta x (sortMeta xs)

/-- Recording one writer entry (`writing/engine.py:205`): one
`DraftIteration` with cycle 0 and role `writer_initial` is appended
(drawing one uuid), and the draft and word count are stored. A writer
entry whose subchapter id is not a key of `iterations_map` raises
`KeyError`, as in the source. -/
def record_writer_entry (project_uuid : Nat) (st : RunState)
    (entry : WriterDraftEntry) : Except EngineError RunState :=
  let iteration : DraftIteration :=
    { id := st.fresh
      project_id := project_uuid
      subchapter_id := entry.subchapter_id
      cycle := 0
      role := AgentRole.writer_initial
      content := entry.content.trim
      summary := entry.summary
      word_count := entry.word_count
      feedback := [] }
  match alistModify st.iterations_map entry.subchapter_id
      (fun l => l ++ [iteration]) with
  | none => Except.error (EngineError.keyError entry.subchapter_id)
  | some im =>
      Except.ok
        { st with
            iterations_map := im
            current_drafts :=
              alistSet st.current_drafts entry.subchapter_id entry.content
            word_counts :=
              alistSet st.word_counts entry.subchapter_id entry.word_count
            fresh := st.fresh + 1 }

/-- Feedback items created from one critic entry
(`writing/engine.py:295`): each gets a fresh engine-assigned uuid and
starts unaddressed; returns the items with the advanced counter. -/
def mk_feedback_items (fresh : Nat) (feedback : List CritiqueFeedback) :
    List DraftFeedbackItem × Nat :=
  match feedback with
  | [] => ([], fresh)
  | fb :: rest =>
      let item : DraftFeedbackItem :=
        { id := fresh
          message := fb.message.trim
          severity := fb.severity
          category := fb.category
          rationale := fb.rationale
          addressed := false
          addressed_in_iteration := none }
      let (items, fresh1) := mk_feedback_items (fresh + 1) rest
      (item :: items, fresh1)

/-- Critic roles by cycle index (`critic_roles`, `writing/engine.py:224`);
the clamp on `cycle_count` keeps the index below 3. -/
def critic_role_at : Nat → AgentRole
  | 0 => AgentRole.writing_critic_i
  | 1 => AgentRole.writing_critic_ii
  | _ => AgentRole.writing_critic_iii

/-- Implementer roles by cycle index (`implement_roles`,
`writing/engine.py:229`). -/
def implement_role_at : Nat → AgentRole
  | 0 => AgentRole.writing_implementation_i
  | 1 => AgentRole.writing_implementation_ii
  | _ => AgentRole.writing_implementation_iii

/-- Recording one critic entry (`writing/engine.py:292`): fresh
feedback items are appended to the subchapter's feedback list, and a
critic `DraftIteration` (content = overview, snapshot = the new items)
is appended. Unknown subchapter ids raise `KeyError`. -/
def record_critic_entry (project_uuid : Nat) (cycle_index : Nat)
    (st : RunState) (entry : CritiqueEntry) : Except EngineError RunState :=
  let (new_feedback, fresh1) := mk_feedback_items st.fresh entry.feedback
  match alistModify st.feedback_map entry.subchapter_id
      (fun l => l ++ new_feedback) with
  | none => Except.error (EngineError.keyError entry.subchapter_id)
  | some fm =>
      let critic_iteration : DraftIteration :=
        { id := fresh1
          project_id := project_uuid
          subchapter_id := entry.subchapter_id
          cycle := cycle_index
          role := critic_role_at cycle_index
          content := entry.overview.trim
          summary := none
          word_count := none
          feedback := new_feedback }
      match alistModify st.iterations_map entry.subchapter_id
          (fun l => l ++ [critic_iteration]) with
      | none => Except.error (EngineError.keyError entry.subchapter_id)
      | some im =>
          Except.ok
            { st with
                feedback_map := fm
                iterations_map := im
                fresh := fresh1 + 1 }

/-- First feedback update of an implementer entry
(`writing/engine.py:373`): every feedback item whose id the implementer
reported as resolved is marked addressed with its iteration stamp
cleared — including items a previous cycle had already addressed and
stamped. -/
def apply_resolution (resolved : List Nat)
    (items : List DraftFeedbackItem) : List DraftFeedbackItem :=
  items.map (fun item =>
    if item.id ∈ resolved then
      { item with addressed := true, addressed_in_iteration := none }
    else item)

/-- Second feedback update of an implementer entry
(`writing/engine.py:389`): every addressed item without a stamp gets
stamped with the id of the implementer iteration being recorded. -/
def stamp_resolution (iteration_id : Nat)
    (items : List DraftFeedbackItem) : List DraftFeedbackItem :=
  items.map (fun item =>
    if item.addressed ∧ item.addressed_in_iteration = none then
      { item with addressed_in_iteration := some iteration_id }
    else item)

/-- `iteration_summary` assembly (`writing/engine.py:361`): the trimmed
summary, merged with trimmed notes when present (Python truthiness:
empty strings behave like `None`). -/
def implementation_summary (summary notes : Option String) : Option String :=
  let base := if pyTruthyStr summary then some ((summary.getD "").trim) else none
  if pyTruthyStr notes then
    let notes_text := (notes.getD "").trim
    match base with
    | some s => some (s ++ " — Notes: " ++ notes_text)
    | none => some ("Notes: " ++ notes_text)
  else base

/-- Recording one implementer entry (`writing/engine.py:357`): stores
the revised draft and word count, applies the two feedback updates with
the freshly drawn iteration id between them, and appends the
implementer `DraftIteration` carrying a full post-update snapshot. -/
def record_implementation_entry (project_uuid : Nat) (cycle_index : Nat)
    (st : RunState) (entry : ImplementationEntry) :
    Except EngineError RunState :=
  let st1 :=
    { st with
        current_drafts :=
          alistSet st.current_drafts entry.subchapter_id entry.content
        word_counts :=
          alistSet st.word_counts entry.subchapter_id entry.word_count }
  match alistLookup st1.feedback_map entry.subchapter_id with
  | none => Except.error (EngineError.keyError entry.subchapter_id)
  | some items =>
      let items1 := apply_resolution entry.resolved_feedback items
      let iteration_id := st1.fresh
      let items2 := stamp_resolution iteration_id items1
      let implementation_iteration : DraftIteration :=
        { id := iteration_id
          project_id := project_uuid
          subchapter_id := entry.subchapter_id
          cycle := cycle_index
          role := implement_role_at cycle_index
          content := entry.content.trim
          summary := implementation_summary entry.summary entry.notes
          word_count := entry.word_count
          feedback := items2 }
      match alistModify st1.iterations_map entry.subchapter_id
          (fun l => l ++ [implementation_iteration]) with
      | none => Except.error (EngineError.keyError entry.subchapter_id)
      | some im =>
          Except.ok
            { st1 with
                feedback_map :=
                  alistSet st1.feedback_map entry.subchapter_id items2
                iterations_map := im
                fresh := iteration_id + 1 }

/-- One critic + implementer cycle (`writing/engine.py:235`). -/
def run_cycle (project_uuid : Nat) (cycle_index : Nat)
    (critic_batch : CritiqueBatch) (implementation_batch : ImplementationBatch)
    (st : RunState) : Except EngineError RunState := do
  let st1 ← critic_batch.subchapters.foldlM
    (record_critic_entry project_uuid cycle_index) st
  let st2 :=
    { st1 with
        critic_summaries :=
          st1.critic_summaries ++
            (if pyTruthyStr critic_batch.summary then
              [(critic_batch.summary.getD "").trim]
            else []) }
  let st3 ← implementation_batch.subchapters.foldlM
    (record_implementation_entry project_uuid cycle_index) st2
  pure
    { st3 with
        summary_parts :=
          st3.summary_parts ++
            (if pyTruthyStr implementation_batch.summary then
              [(implementation_batch.summary.getD "").trim]
            else []) }

/-- The cycle loop: consumes one parsed `(critic, implementer)` output
pair per cycle; running out of outputs models a failed provider call. -/
def run_cycles (project_uuid : Nat)
    (outputs : List (CritiqueBatch × ImplementationBatch))
    (cycle_index : Nat) (remaining : Nat) (st : RunState) :
    Except EngineError RunState :=
  match remaining, outputs with
  | 0, _ => Except.ok st
  | _ + 1, [] => Except.error EngineError.providerFailure
  | r + 1, (cb, ib) :: rest => do
      let st1 ← run_cycle project_uuid cycle_index cb ib st
      run_cycles project_uuid rest (cycle_index + 1) r st1

/-- Final per-subchapter assembly (`writing/engine.py:413`): statuses
are derived exactly as in the source — `ready` when no outstanding
feedback remains, downgraded to `draft` when there are no iterations. -/
def build_subchapter_state (st : RunState) (entry : String × SubMeta) :
    Except EngineError SubchapterDraftState :=
  match alistLookup st.iterations_map entry.1,
      alistLookup st.feedback_map entry.1 with
  | some iterations, some all_feedback =>
      let outstanding_feedback :=
        all_feedback.filter (fun item => item.addressed = false)
      let status0 := if outstanding_feedback.isEmpty then "ready" else "in_review"
      let status := if iterations.isEmpty then "draft" else status0
      let current_cycle := (iterations.map (fun it => it.cycle)).foldl max 0
      Except.ok
        { subchapter_id := entry.1
          title := entry.2.title
          chapter_title := entry.2.chapter_title
          order_label := entry.2.order_label
          current_cycle := current_cycle
          status := status
          iterations := iterations
          outstanding_feedback := outstanding_feedback
          final_iteration_id := (iterations.getLast?).map (fun it => it.id)
          final_word_count := (alistLookup st.word_counts entry.1).getD none }
  | _, _ => Except.error (EngineError.keyError entry.1)

/-- The running `total_word_count` accumulation
(`writing/engine.py:420`): a subchapter contributes its stored count
when that count is truthy (neither `None` nor `0`). -/
def total_word_count_acc (st : RunState)
    (sorted_meta : List (String × SubMeta)) : Nat :=
  sorted_meta.foldl
    (fun acc entry =>
      let wc := (alistLookup st.word_counts entry.1).getD none
      if wc.getD 0 ≠ 0 then acc + wc.getD 0 else acc)
    0

/-- Batch assembly after all cycles (`writing/engine.py:406` to `:464`):
builds the per-subchapter states over the sorted metadata, derives
readiness, and replaces a zero total word count by `None`
(`total_word_count = total_word_count or None`). -/
def finalize_writing_batch (project_uuid : Nat) (cycle_count : Nat)
    (meta_lookup : List (String × SubMeta)) (st : RunState) :
    Except EngineError WritingBatch := do
  let sorted_meta := sortMeta meta_lookup
  let subchapter_states ← sorted_meta.mapM (build_subchapter_state st)
  let readiness :=
    if subchapter_states.all (fun s => s.status = "ready") then "ready"
    else "draft"
  let total0 := total_word_count_acc st sorted_meta
  let summary_text :=
    String.intercalate "\n\n" (st.summary_parts.filter (fun p => p ≠ ""))
  pure
    { project_id := project_uuid
      cycle_count := cycle_count
      readiness := readiness
      summary := if summary_text = "" then none else some summary_text
      subchapters := subchapter_states
      total_word_count := if total0 = 0 then none else some total0 }

/-- `project_uuid` resolution (`writing/engine.py:126`): the parsed id
when `UUID(str(...))` succeeded, else a freshly drawn uuid. -/
def resolve_project_id (parsed : Option Nat) (fresh : Nat) : Nat × Nat :=
  match parsed with
  | some u => (u, fresh)
  | none => (fresh, fresh + 1)

/-- The run-local dictionaries as initialised at `writing/engine.py:195`:
one empty entry per metadata subchapter. -/
def writing_initial_state (meta_lookup : List (String × SubMeta))
    (fresh : Nat) : RunState :=
  { iterations_map := meta_lookup.map (fun p => (p.1, []))
    feedback_map := meta_lookup.map (fun p => (p.1, []))
    current_drafts := []
    word_counts := []
    fresh := fresh
    summary_parts := []
    critic_summaries := [] }

/-- The writer-overview summary append (`writing/engine.py:221`). -/
def writer_overview_update (writer_batch : WriterDraftBatch)
    (st : RunState) : RunState :=
  { st with
      summary_parts :=
        st.summary_parts ++
          (if pyTruthyStr writer_batch.overview then
            [(writer_batch.overview.getD "").trim]
          else []) }

/-- The three phases following the completeness check: writer
recording, the cycle loop, and batch assembly. -/
def writing_run_phases (project_uuid : Nat) (cycle_count : Nat)
    (meta_lookup : List (String × SubMeta)) (writer_batch : WriterDraftBatch)
    (cycle_outputs : List (CritiqueBatch × ImplementationBatch))
    (fresh : Nat) : Except EngineError WritingBatch := do
  let st1 ← writer_batch.subchapters.foldlM
    (record_writer_entry project_uuid) (writing_initial_state meta_lookup fresh)
  let st3 ← run_cycles project_uuid cycle_outputs 0 cycle_count
    (writer_overview_update writer_batch st1)
  finalize_writing_batch project_uuid cycle_count meta_lookup st3

/-- The writing run from the resolved project id onwards: writer-output
completeness check, then the three phases. -/
def writing_run_core (project_uuid : Nat) (fresh : Nat)
    (subchapter_meta : List SubchapterMetaItem) (cycle_count_raw : Option Int)
    (writer_batch : WriterDraftBatch)
    (cycle_outputs : List (CritiqueBatch × ImplementationBatch)) :
    Except EngineError WritingBatch :=
  let cycle_count := (max 1 (min 3 (pyOrIntD cycle_count_raw 3))).toNat
  let meta_lookup := build_meta_lookup subchapter_meta
  let meta_ids := meta_lookup.map (fun p => p.1)
  let writer_ids := writer_batch.subchapters.map (fun e => e.subchapter_id)
  let missing := meta_ids.filter (fun k => ¬ writer_ids.contains k)
  if missing.isEmpty then
    writing_run_phases project_uuid cycle_count meta_lookup writer_batch
      cycle_outputs fresh
  else
    Except.error (EngineError.providerResponse
      ("Writing stage omitted drafts for subchapters: " ++
        String.intercalate ", " (sortStrings missing)))

/-- `generate_writing_batch` (`writing/engine.py:106`), from parsed
model outputs to the returned `WritingBatch`. -/
def generate_writing_batch (payload : WritingPayload)
    (writer_batch : WriterDraftBatch)
    (cycle_outputs : List (CritiqueBatch × ImplementationBatch))
    (fresh : Nat) : Except EngineError WritingBatch :=
  let pc := resolve_project_id payload.project_id fresh
  writing_run_core pc.1 pc.2 payload.subchapters payload.cycle_count
    writer_batch cycle_outputs

/-! ## Concrete inputs used by witnesses and counterexamples -/

/-- An override whose `name` is the empty string — non-null but falsy. -/
def ovStageEmptyName : ProviderOverride :=
  { name := some ""
    model := none
    temperature := some 1
    max_output_tokens := none
    json_mode := none
    top_p := none
    reasoning_effort := none
    verbosity := none
    thinking_budget := none
    include_thoughts := none }

/-- A run-level override carrying a provider name. -/
def ovRunNamed : ProviderOverride :=
  { name := some "gemini"
    model := some "gemini-2.5-pro"
    temperature := none
    max_output_tokens := some 1024
    json_mode := none
    top_p := none
    reasoning_effort := none
    verbosity := none
    thinking_budget := none
    include_thoughts := none }

/-- A provider configuration used by concrete cache examples. -/
def cfgX : ProviderConfigModel := { name := "gemini", model := "gemini-2.5-pro" }

/-- A 1300-character prompt: long enough that a 300-token limit trims it
(1300 / 4 = 325 > 300) while the 12000-token default does not. -/
def longPromptX : String := String.mk (List.replicate 1300 'a')

/-- A request carrying the long prompt. -/
def reqLongX : ProviderRequestModel :=
  { prompt := longPromptX
    system_prompt := some "sys"
    json_schema := some "schema"
    temperature := some 1
    max_output_tokens := none
    top_p := none
    reasoning_effort := none
    verbosity := none
    thinking_budget := none
    include_thoughts := none
    metadata_tags := [("stage", "WRITING")]
    metadata_trimming := none }

/-- A constant provider backend for concrete cache examples. -/
def genX : ProviderRequestModel → ProviderResponseModel :=
  fun _ =>
    { text := "ok"
      model := "gemini-2.5-pro"
      prompt_tokens := 10
      completion_tokens := 5
      cost_usd := none
      latency_ms := some 12 }

/-- Scenario C structure: two subchapters in one chapter. -/
def structX : BookStructureModel :=
  { project_id := "p1"
    version := 1
    chapters :=
      [{ id := "c1", title := "Chapter", summary := "sum", order := 1
         subchapters :=
          [{ id := "s1", title := "Sub 1", summary := "s", order := 1 },
           { id := "s2", title := "Sub 2", summary := "s", order := 2 }] }] }

/-- Scenario C final mapping: both facts assigned to subchapter 1, and
a bogus model-provided coverage field that must be discarded. -/
def mappingX : FactMappingBatch :=
  { project_id := "p1"
    facts :=
      [{ id := "f1", subchapter_id := "s1", summary := "a", detail := "d" },
       { id := "f2", subchapter_id := "s1", summary := "b", detail := "d" }]
    coverage := [{ subchapter_id := "s9", fact_count := 7 }] }

/-- Metadata for a single requested subchapter. -/
def metaS1 : SubchapterMetaItem :=
  { id := some "s1"
    title := some "Sub One"
    chapter_title := some "Chapter One"
    order_label := some "1.1"
    chapter_order := 1
    sub_order := 1 }

/-- Scenario A payload: one subchapter, one cycle. -/
def payloadA : WritingPayload :=
  { project_id := some 42
    subchapters := [metaS1]
    cycle_count := some 1 }

/-- Scenario A writer output. -/
def writerA : WriterDraftBatch :=
  { subchapters :=
      [{ subchapter_id := "s1"
         content := "Initial draft."
         summary := some "first pass"
         word_count := some 120 }]
    overview := none }

/-- Scenario A critic output: one feedback item; the engine will assign
it id 1 (the writer iteration takes id 0). -/
def criticA : CritiqueBatch :=
  { subchapters :=
      [{ subchapter_id := "s1"
         overview := "needs a fix"
         feedback :=
          [{ message := "fix intro"
             severity := CritiqueSeverity.warning
             category := none
             rationale := none }] }]
    summary := none }

/-- Scenario A implementer output resolving feedback id 1. -/
def implementerA : ImplementationBatch :=
  { subchapters :=
      [{ subchapter_id := "s1"
         content := "Fixed draft."
         summary := none
         word_count := some 130
         resolved_feedback := [1]
         notes := none }]
    summary := none }

/-- Fallback batch for extracting a run result (never used on the
successful concrete runs below). -/
def junkWritingBatch : WritingBatch :=
  { project_id := 0
    cycle_count := 1
    readiness := "draft"
    summary := none
    subchapters := []
    total_word_count := none }

/-- The batch scenario A produces. -/
def scenarioABatch : WritingBatch :=
  match generate_writing_batch payloadA writerA [(criticA, implementerA)] 0 with
  | Except.ok b => b
  | Except.error _ => junkWritingBatch

/-- Scenario B implementer output: resolves nothing. -/
def implementerB : ImplementationBatch :=
  { subchapters :=
      [{ subchapter_id := "s1"
         content := "Reworked draft."
         summary := none
         word_count := some 125
         resolved_feedback := []
         notes := none }]
    summary := none }

/-- The batch scenario B produces. -/
def scenarioBBatch : WritingBatch :=
  match generate_writing_batch payloadA writerA [(criticA, implementerB)] 0 with
  | Except.ok b => b
  | Except.error _ => junkWritingBatch

/-- A critic batch with no entries. -/
def emptyCritique : CritiqueBatch := { subchapters := [], summary := none }

/-- An implementer batch with no entries. -/
def emptyImplementation : ImplementationBatch :=
  { subchapters := [], summary := none }

/-- A writer output reporting a word count of zero. -/
def writerZero : WriterDraftBatch :=
  { subchapters :=
      [{ subchapter_id := "s1"
         content := "Draft."
         summary := none
         word_count := some 0 }]
    overview := none }

/-- Two-cycle payload for the feedback re-stamp run. -/
def payloadC2 : WritingPayload :=
  { project_id := some 7
    subchapters := [metaS1]
    cycle_count := some 2 }

/-- Second-cycle implementer that re-reports the already addressed
feedback id 1. -/
def implementerC2b : ImplementationBatch :=
  { subchapters :=
      [{ subchapter_id := "s1"
         content := "Polished draft."
         summary := none
         word_count := some 140
         resolved_feedback := [1]
         notes := none }]
    summary := none }

/-- Payload whose project id failed to parse as a UUID. -/
def payloadNoId : WritingPayload :=
  { project_id := none
    subchapters := [metaS1]
    cycle_count := some 1 }

/-- A writer output drafting only an unknown subchapter. -/
def writerWrong : WriterDraftBatch :=
  { subchapters :=
      [{ subchapter_id := "zz"
         content := "Stray draft."
         summary := none
         word_count := none }]
    overview := none }

/-- Feedback items satisfying the engine's rest-state invariant: every
addressed item carries its stamp. -/
def feedbackItemsW : List DraftFeedbackItem :=
  [{ id := 1
     message := "tighten the opening"
     severity := CritiqueSeverity.warning
     category := none
     rationale := none
     addressed := false
     addressed_in_iteration := none },
   { id := 2
     message := "cite the source"
     severity := CritiqueSeverity.error
     category := none
     rationale := none
     addressed := true
     addressed_in_iteration := some 3 }]

/-! # Theorems -/

/-- C4 counterexample: the claim says the merged override takes the
stage override's value for each field whenever that value is non-null,
but `name` (and `model`) merge with Python `or`: a stage `name` that is
the non-null empty string is discarded in favour of the run value. -/
theorem merge_overrides_nonnull_counterexample :
    (_merge_overrides (some ovStageEmptyName) (some ovRunNamed)).map
        (fun o => o.name) = some (some "gemini") ∧
      ovStageEmptyName.name = some "" ∧
      (some "" : Option String) ≠ none ∧
      (some "gemini" : Option String) ≠ some "" := by
  refine ⟨rfl, rfl, by decide, by decide⟩

/-- Helper: the `is not None` merge keeps a present left value. -/
theorem pyIfNotNone_of_ne {α : Type} (a b : Option α) (h : a ≠ none) :
    pyIfNotNone a b = a := by
  cases a with
  | none => exact absurd rfl h
  | some v => rfl

/-- Helper: the `is not None` merge falls through on a null left value. -/
theorem pyIfNotNone_of_eq {α : Type} (a b : Option α) (h : a = none) :
    pyIfNotNone a b = b := by
  subst h; rfl

/-- Helper: Python `or` keeps a truthy left string. -/
theorem pyOrStr_of_truthy (a b : Option String)
    (h : a ≠ none ∧ a ≠ some "") : pyOrStr a b = a := by
  cases ha : a with
  | none => exact absurd ha h.1
  | some v =>
      have hv : v ≠ "" := by
        intro h0
        exact h.2 (by rw [ha, h0])
      simp [pyOrStr, pyTruthyStr, hv]

/-- Helper: Python `or` falls through on a falsy left string. -/
theorem pyOrStr_of_falsy (a b : Option String)
    (h : a = none ∨ a = some "") : pyOrStr a b = b := by
  rcases h with h | h <;> simp [pyOrStr, pyTruthyStr, h]

/-- C4 (amended): merging two present overrides is field-by-field; for
every field except `name` and `model` the stage value wins exactly when
it is non-null, while `name` and `model` fall through to the run value
when the stage value is null or empty; and a wholly absent side leaves
the other side unchanged (identity). -/
theorem merge_overrides_amended :
    (∀ r, _merge_overrides none r = r) ∧
    (∀ s, _merge_overrides (some s) none = some s) ∧
    (∀ s r m, _merge_overrides (some s) (some r) = some m →
      ((s.name ≠ none ∧ s.name ≠ some "") → m.name = s.name) ∧
      ((s.name = none ∨ s.name = some "") → m.name = r.name) ∧
      ((s.model ≠ none ∧ s.model ≠ some "") → m.model = s.model) ∧
      ((s.model = none ∨ s.model = some "") → m.model = r.model) ∧
      (s.temperature ≠ none → m.temperature = s.temperature) ∧
      (s.temperature = none → m.temperature = r.temperature) ∧
      (s.max_output_tokens ≠ none → m.max_output_tokens = s.max_output_tokens) ∧
      (s.max_output_tokens = none → m.max_output_tokens = r.max_output_tokens) ∧
      (s.json_mode ≠ none → m.json_mode = s.json_mode) ∧
      (s.json_mode = none → m.json_mode = r.json_mode) ∧
      (s.top_p ≠ none → m.top_p = s.top_p) ∧
      (s.top_p = none → m.top_p = r.top_p) ∧
      (s.reasoning_effort ≠ none → m.reasoning_effort = s.reasoning_effort) ∧
      (s.reasoning_effort = none → m.reasoning_effort = r.reasoning_effort) ∧
      (s.verbosity ≠ none → m.verbosity = s.verbosity) ∧
      (s.verbosity = none → m.verbosity = r.verbosity) ∧
      (s.thinking_budget ≠ none → m.thinking_budget = s.thinking_budget) ∧
      (s.thinking_budget = none → m.thinking_budget = r.thinking_budget) ∧
      (s.include_thoughts ≠ none → m.include_thoughts = s.include_thoughts) ∧
      (s.include_thoughts = none → m.include_thoughts = r.include_thoughts)) := by
  refine ⟨fun r => rfl, fun s => rfl, fun s r m hm => ?_⟩
  have hm1 : m =
      { name := pyOrStr s.name r.name
        model := pyOrStr s.model r.model
        temperature := pyIfNotNone s.temperature r.temperature
        max_output_tokens := pyIfNotNone s.max_output_tokens r.max_output_tokens
        json_mode := pyIfNotNone s.json_mode r.json_mode
        top_p := pyIfNotNone s.top_p r.top_p
        reasoning_effort := pyIfNotNone s.reasoning_effort r.reasoning_effort
        verbosity := pyIfNotNone s.verbosity r.verbosity
        thinking_budget := pyIfNotNone s.thinking_budget r.thinking_budget
        include_thoughts := pyIfNotNone s.include_thoughts r.include_thoughts } :=
    (Option.some.inj hm).symm
  subst hm1
  exact ⟨fun h => pyOrStr_of_truthy _ _ h,
    fun h => pyOrStr_of_falsy _ _ h,
    fun h => pyOrStr_of_truthy _ _ h,
    fun h => pyOrStr_of_falsy _ _ h,
    fun h => pyIfNotNone_of_ne _ _ h,
    fun h => pyIfNotNone_of_eq _ _ h,
    fun h => pyIfNotNone_of_ne _ _ h,
    fun h => pyIfNotNone_of_eq _ _ h,
    fun h => pyIfNotNone_of_ne _ _ h,
    fun h => pyIfNotNone_of_eq _ _ h,
    fun h => pyIfNotNone_of_ne _ _ h,
    fun h => pyIfNotNone_of_eq _ _ h,
    fun h => pyIfNotNone_of_ne _ _ h,
    fun h => pyIfNotNone_of_eq _ _ h,
    fun h => pyIfNotNone_of_ne _ _ h,
    fun h => pyIfNotNone_of_eq _ _ h,
    fun h => pyIfNotNone_of_ne _ _ h,
    fun h => pyIfNotNone_of_eq _ _ h,
    fun h => pyIfNotNone_of_ne _ _ h,
    fun h => pyIfNotNone_of_eq _ _ h⟩

/-- Witness for `merge_overrides_amended` at concrete overrides: the
stage override carries a truthy name, which survives the merge. -/
theorem merge_overrides_amended_witness :
    ((_merge_overrides (some ovRunNamed) (some ovStageEmptyName)).getD
        ovRunNamed).name = ovRunNamed.name := by
  exact (merge_overrides_amended.2.2 ovRunNamed ovStageEmptyName
    ((_merge_overrides (some ovRunNamed) (some ovStageEmptyName)).getD ovRunNamed)
    (by decide)).1 (by decide)

/-- C7: the budget gate admits every stage when no spend limit is
configured, and rejects with the distinct HTTP 402 signal exactly when
a limit exists and the accumulated total meets or exceeds it — in
particular a total exactly equal to the limit is rejected. -/
theorem budget_gate_correct :
    (∀ t, _guard_project_budget none t = BudgetGate.admitted) ∧
    (∀ l t, t ≥ l → _guard_project_budget (some l) t =
      BudgetGate.rejected 402
        "Project budget exhausted. Increase or disable the spend limit to continue.") ∧
    (∀ l t, t < l → _guard_project_budget (some l) t = BudgetGate.admitted) ∧
    (∀ l, _guard_project_budget (some l) l =
      BudgetGate.rejected 402
        "Project budget exhausted. Increase or disable the spend limit to continue.") := by
  refine ⟨fun t => rfl, fun l t h => ?_, fun l t h => ?_, fun l => ?_⟩
  · simp [_guard_project_budget, h]
  · simp [_guard_project_budget, show ¬ (t ≥ l) from not_le.mpr h]
  · simp [_guard_project_budget]

/-- Witness for `budget_gate_correct` at limit 500 with totals 500, 499. -/
theorem budget_gate_correct_witness :
    _guard_project_budget (some 500) 500 =
      BudgetGate.rejected 402
        "Project budget exhausted. Increase or disable the spend limit to continue." ∧
    _guard_project_budget (some 500) 499 = BudgetGate.admitted := by
  exact ⟨budget_gate_correct.2.1 500 500 (by decide),
    budget_gate_correct.2.2.1 500 499 (by decide)⟩

/-- Helper: a fresh binding is retrievable. -/
theorem alistLookup_set_self {α : Type} (m : List (String × α)) (k : String)
    (v : α) : alistLookup (alistSet m k v) k = some v := by
  induction m with
  | nil => simp [alistSet, alistLookup, List.find?]
  | cons p rest ih =>
      by_cases hk : p.1 = k
      · simp [alistSet, hk, alistLookup, List.find?]
      · cases p with
        | mk k0 v0 =>
            simp only at hk
            simp only [alistSet, if_neg hk]
            simpa [alistLookup, List.find?, hk] using ih

/-- Helper: setting one key does not disturb another. -/
theorem alistLookup_set_other {α : Type} (m : List (String × α))
    (k k' : String) (v : α) (h : k' ≠ k) :
    alistLookup (alistSet m k v) k' = alistLookup m k' := by
  induction m with
  | nil =>
      simp [alistSet, alistLookup, List.find?,
        decide_eq_false (fun he : k = k' => h he.symm)]
  | cons p rest ih =>
      cases p with
      | mk k0 v0 =>
          by_cases hk : k0 = k
          · subst hk
            simp [alistSet, alistLookup, List.find?,
              decide_eq_false (fun he : k0 = k' => h he.symm)]
          · simp only [alistSet, if_neg hk]
            by_cases hk2 : k0 = k'
            · simp [alistLookup, List.find?, hk2]
            · simpa [alistLookup, List.find?, hk2] using ih

/-- Helper: the fact-count fold computes, per key, the number of facts
carrying that subchapter id (shifted by whatever the accumulator held). -/
theorem coverageCounts_fold (facts : List ResearchFactModel) :
    ∀ (counts : List (String × Nat)) (k : String),
      (alistLookup
          (facts.foldl
            (fun counts fact =>
              alistSet counts fact.subchapter_id
                ((alistLookup counts fact.subchapter_id).getD 0 + 1))
            counts) k).getD 0 =
        (alistLookup counts k).getD 0 +
          (facts.filter (fun f => f.subchapter_id = k)).length := by
  induction facts with
  | nil => intro counts k; simp
  | cons fact rest ih =>
      intro counts k
      simp only [List.foldl_cons]
      by_cases hk : fact.subchapter_id = k
      · subst hk
        rw [ih, alistLookup_set_self]
        simp [List.filter_cons]
        omega
      · rw [ih, alistLookup_set_other _ _ _ _ (fun h0 => hk h0.symm)]
        simp [List.filter_cons, hk]

/-- Helper: per-key fact counts from `coverageCounts`. -/
theorem coverageCounts_lookup (facts : List ResearchFactModel) (k : String) :
    (alistLookup (coverageCounts facts) k).getD 0 =
      (facts.filter (fun f => f.subchapter_id = k)).length := by
  have h := coverageCounts_fold facts [] k
  simpa [coverageCounts, alistLookup, List.find?] using h

/-- C6 part (a) in isolation: the rebuilt coverage is the subchapter
list of the structure, in order, mapped to its local fact recount. -/
theorem build_coverage_eq (struct : BookStructureModel)
    (m : FactMappingBatch) :
    _build_coverage struct m =
      (structureSubchapters struct).map (fun sub =>
        { subchapter_id := sub.id
          fact_count :=
            (m.facts.filter (fun f => f.subchapter_id = sub.id)).length }) := by
  simp only [_build_coverage, structureSubchapters, List.map_flatten,
    List.map_map]
  congr 1
  refine List.map_congr_left (fun ch _ => ?_)
  simp only [Function.comp]
  refine List.map_congr_left (fun sub _ => ?_)
  rw [coverageCounts_lookup]

/-- Helper: no record for an id absent from the list. -/
theorem filter_id_nil (subs : List SubchapterModel) (sid : String)
    (h : ¬ sid ∈ subs.map (fun sub => sub.id)) :
    subs.filter (fun sub => sub.id = sid) = [] := by
  induction subs with
  | nil => rfl
  | cons sub rest ih =>
      simp only [List.map_cons, List.mem_cons] at h
      push_neg at h
      have hne : sub.id ≠ sid := fun h0 => h.1 h0.symm
      simp only [List.filter_cons, hne, decide_eq_false hne,
        Bool.false_eq_true, if_false]
      exact ih h.2

/-- Helper: under distinct ids, each present id matches exactly once. -/
theorem filter_id_one (subs : List SubchapterModel) (sid : String)
    (hnd : (subs.map (fun sub => sub.id)).Nodup)
    (hmem : sid ∈ subs.map (fun sub => sub.id)) :
    (subs.filter (fun sub => sub.id = sid)).length = 1 := by
  induction subs with
  | nil => simp at hmem
  | cons sub rest ih =>
      simp only [List.map_cons, List.nodup_cons] at hnd
      rcases List.mem_cons.mp hmem with h | h
      · have hrest : rest.filter (fun s => s.id = sid) = [] :=
          filter_id_nil rest sid (by rw [h]; exact hnd.1)
        simp [List.filter_cons, h.symm, hrest]
      · have hne : sub.id ≠ sid := by
          intro h0
          rw [h0] at hnd
          exact hnd.1 h
        simp only [List.filter_cons, decide_eq_false hne,
          Bool.false_eq_true, if_false]
        exact ih hnd.2 h

/-- C6: for every fact-mapping run, the returned batch's coverage is
exactly one record per subchapter of the input structure (in structure
order), whose `fact_count` is the number of final-batch facts assigned
to it — zero-count records included — and the model's own coverage
field never influences the result. -/
theorem fact_mapping_coverage_correct (struct : BookStructureModel)
    (m : FactMappingBatch) :
    ((finalizeFactMapping struct m).coverage =
      (structureSubchapters struct).map (fun sub =>
        { subchapter_id := sub.id
          fact_count :=
            (m.facts.filter (fun f => f.subchapter_id = sub.id)).length })) ∧
    (∀ c, finalizeFactMapping struct { m with coverage := c } =
      finalizeFactMapping struct m) ∧
    ((((structureSubchapters struct).map (fun sub => sub.id)).Nodup) →
      ∀ sid ∈ (structureSubchapters struct).map (fun sub => sub.id),
        ((finalizeFactMapping struct m).coverage.filter
          (fun record => record.subchapter_id = sid)).length = 1) := by
  refine ⟨by simpa [finalizeFactMapping] using build_coverage_eq struct m,
    fun c => by simp [finalizeFactMapping, _build_coverage], ?_⟩
  intro hnd sid hmem
  have hcov := build_coverage_eq struct m
  simp only [finalizeFactMapping] at hcov ⊢
  rw [hcov]
  have hfilter :
      ∀ subs : List SubchapterModel,
        ((subs.map (fun sub =>
            ({ subchapter_id := sub.id
               fact_count :=
                 (m.facts.filter (fun f => f.subchapter_id = sub.id)).length }
              : SubchapterFactCoverage))).filter
          (fun record => record.subchapter_id = sid)).length =
        (subs.filter (fun sub => sub.id = sid)).length := by
    intro subs
    induction subs with
    | nil => rfl
    | cons sub rest ih =>
        by_cases h : sub.id = sid
        · simp [List.filter_cons, h, ih]
        · simp only [List.map_cons, List.filter_cons, decide_eq_false h,
            Bool.false_eq_true, if_false]
          exact ih
  rw [hfilter]
  exact filter_id_one _ _ hnd hmem

/-- Witness for `fact_mapping_coverage_correct`: end-to-end scenario C —
a structure with two subchapters, both facts mapped to the first.
Coverage is (s1, 2), (s2, 0) and the model's bogus record is gone. -/
theorem fact_mapping_coverage_correct_witness :
    (finalizeFactMapping structX mappingX).coverage =
      [{ subchapter_id := "s1", fact_count := 2 },
       { subchapter_id := "s2", fact_count := 0 }] ∧
    ((finalizeFactMapping structX mappingX).coverage.filter
      (fun record => record.subchapter_id = "s1")).length = 1 := by
  refine ⟨by decide, ?_⟩
  exact (fact_mapping_coverage_correct structX mappingX).2.2 (by decide)
    "s1" (by decide)

set_option maxRecDepth 20000 in
/-- C5: cache-key determinism. Two build-key calls agree exactly when
provider, model, stage, original prompt, system prompt, schema and all
seven sampling parameters agree (so any single differing field changes
the key); the key that `StageCache.generate` stores a miss under is
always built from the original, untrimmed prompt; hence the stored key
is independent of the configured trimming limit — a call whose prompt
gets trimmed keys identically to one left untouched — and the
1300-character example prompt indeed trims under a 300-token limit but
not under the 12000-token default. -/
theorem cache_key_determinism :
    (∀ c1 r1 s1 p1 c2 r2 s2 p2,
      StageCache._build_key c1 r1 s1 p1 = StageCache._build_key c2 r2 s2 p2 ↔
        (c1.name = c2.name ∧ c1.model = c2.model ∧ s1 = s2 ∧ p1 = p2 ∧
          r1.system_prompt = r2.system_prompt ∧
          r1.json_schema = r2.json_schema ∧
          r1.temperature = r2.temperature ∧
          r1.max_output_tokens = r2.max_output_tokens ∧
          r1.top_p = r2.top_p ∧
          r1.reasoning_effort = r2.reasoning_effort ∧
          r1.verbosity = r2.verbosity ∧
          r1.thinking_budget = r2.thinking_budget ∧
          r1.include_thoughts = r2.include_thoughts)) ∧
    (∀ cfg gen req stage limit,
      ((StageCache.generate cfg gen req stage limit []).2.1).map Prod.fst =
        [StageCache._build_key cfg req stage req.prompt]) ∧
    (∀ cfg gen req stage l1 l2,
      ((StageCache.generate cfg gen req stage l1 []).2.1).map Prod.fst =
        ((StageCache.generate cfg gen req stage l2 []).2.1).map Prod.fst) ∧
    ((summarise_prompt longPromptX (some 300)).2 = true ∧
      (summarise_prompt longPromptX (some 12000)).2 = false) := by
  have hstore : ∀ cfg gen req stage limit,
      ((StageCache.generate cfg gen req stage limit []).2.1).map Prod.fst =
        [StageCache._build_key cfg req stage req.prompt] := by
    intro cfg gen req stage limit
    cases hsp : summarise_prompt req.prompt (some limit) with
    | mk t w =>
        cases w <;>
          simp [StageCache.generate, cacheGet, List.find?, hsp]
  refine ⟨?_, hstore, ?_, by decide, by decide⟩
  · intro c1 r1 s1 p1 c2 r2 s2 p2
    constructor
    · intro h
      exact (CacheKey.mk.injEq _ _ _ _ _ _ _ _ _ _ _ _ _ _ _ _ _ _ _ _ _ _ _ _ _ _).mp h
    · intro h
      simp only [StageCache._build_key]
      obtain ⟨h1, h2, h3, h4, h5, h6, h7, h8, h9, h10, h11, h12, h13⟩ := h
      rw [h1, h2, h3, h4, h5, h6, h7, h8, h9, h10, h11, h12, h13]
  · intro cfg gen req stage l1 l2
    rw [hstore, hstore]

/-- C8: the claim describes what a successful guidelines-stage run
returns, but no successful run exists in this source — the engine
mismatches its own helpers, so every run of
`generate_creative_guidelines` fails with the same `TypeError` before
any provider call, and the `_ensure_final_metadata` stamping the claim
(and spec section 4.3) describes is never reached. The stamping helper
itself is transcribed above; the intent the spec states is exactly what
line 112 would apply on a run that got there. -/
theorem guidelines_run_raises_type_error :
    ∀ (payload : GuidelinesPayload)
      (run_override stage_override : Option ProviderOverride),
      generate_creative_guidelines payload run_override stage_override =
        Except.error (PyRuntimeError.typeError
          "_request_batch() missing 1 required positional argument: override") :=
  fun _ _ _ => rfl

/-- Helper: inverting a successful `Except` bind. -/
theorem except_bind_ok {ε α β : Type} (e : Except ε α) (f : α → Except ε β)
    (b : β) :
    (e >>= f = Except.ok b) ↔ ∃ a, e = Except.ok a ∧ f a = Except.ok b := by
  cases e with
  | error err =>
      constructor
      · intro h
        exact absurd h (by simp [Bind.bind, Except.bind])
      · rintro ⟨a, ha, _⟩
        exact absurd ha (by simp)
  | ok a =>
      constructor
      · intro h
        exact ⟨a, rfl, h⟩
      · rintro ⟨a2, ha, hf⟩
        cases Except.ok.inj ha
        exact hf

/-- Helper: a successful `foldlM` over `Except` preserves invariants. -/
theorem foldlM_ok_invariant {ε α β : Type} (f : β → α → Except ε β)
    (P : β → Prop)
    (hf : ∀ b a b2, P b → f b a = Except.ok b2 → P b2) :
    ∀ (l : List α) (b b2 : β),
      List.foldlM f b l = Except.ok b2 → P b → P b2 := by
  intro l
  induction l with
  | nil =>
      intro b b2 h hb
      simp only [List.foldlM_nil] at h
      cases Except.ok.inj h
      exact hb
  | cons a rest ih =>
      intro b b2 h hb
      simp only [List.foldlM_cons] at h
      rw [except_bind_ok] at h
      obtain ⟨b1, h1, h2⟩ := h
      exact ih b1 b2 h2 (hf b a b1 hb h1)

/-- Helper: a successful `mapM` over `Except` relates inputs and
outputs pointwise. -/
theorem mapM_ok_forall2 {ε α β : Type} (f : α → Except ε β) :
    ∀ (l : List α) (ys : List β), l.mapM f = Except.ok ys →
      List.Forall₂ (fun x y => f x = Except.ok y) l ys := by
  intro l
  induction l with
  | nil =>
      intro ys h
      simp only [List.mapM_nil] at h
      cases Except.ok.inj h
      exact List.Forall₂.nil
  | cons a rest ih =>
      intro ys h
      simp only [List.mapM_cons] at h
      rw [except_bind_ok] at h
      obtain ⟨y, hy, h⟩ := h
      rw [except_bind_ok] at h
      obtain ⟨ys0, hys0, h⟩ := h
      have hpure : (pure (y :: ys0) : Except ε (List β)) = Except.ok (y :: ys0) := rfl
      rw [hpure] at h
      cases Except.ok.inj h
      exact List.Forall₂.cons hy (ih ys0 hys0)

/-- Helper: right members of a pointwise relation have a related left
member. -/
theorem forall2_mem_right {α β : Type} {R : α → β → Prop}
    {l : List α} {ys : List β} (h : List.Forall₂ R l ys) :
    ∀ y ∈ ys, ∃ x ∈ l, R x y := by
  induction h with
  | nil => intro y hy; cases hy
  | cons hr _ ih =>
      intro y hy
      rcases List.mem_cons.mp hy with h0 | h0
      · subst h0
        exact ⟨_, List.mem_cons_self _ _, hr⟩
      · obtain ⟨x, hx, hxr⟩ := ih y h0
        exact ⟨x, List.mem_cons_of_mem _ hx, hxr⟩

/-- Helper: mapping both sides of a pointwise relation gives equal
lists when the relation forces equal images. -/
theorem forall2_map_eq {α β γ : Type} {R : α → β → Prop}
    {l : List α} {ys : List β} (h : List.Forall₂ R l ys)
    (g : β → γ) (gl : α → γ) (hg : ∀ x y, R x y → g y = gl x) :
    ys.map g = l.map gl := by
  induction h with
  | nil => rfl
  | cons hr _ ih => simp [ih, hg _ _ hr]

/-- Helper: the three-way status derivation of the writing engine,
analysed by cases. -/
theorem status_cases (iterations : List DraftIteration)
    (outstanding : List DraftFeedbackItem) :
    ((if iterations.isEmpty then "draft"
        else if outstanding.isEmpty then "ready" else "in_review") = "ready" ↔
      iterations ≠ [] ∧ outstanding = []) ∧
    ((if iterations.isEmpty then "draft"
        else if outstanding.isEmpty then "ready" else "in_review") = "in_review" ↔
      iterations ≠ [] ∧ outstanding ≠ []) ∧
    ((if iterations.isEmpty then "draft"
        else if outstanding.isEmpty then "ready" else "in_review") = "draft" ↔
      iterations = []) := by
  by_cases hi : iterations.isEmpty <;> by_cases ho : outstanding.isEmpty <;>
    simp_all [List.isEmpty_iff]

/-- Helper: everything a successful per-subchapter assembly guarantees:
the three-way status derivation, the outstanding list being exactly the
unaddressed items, and the provenance of iterations and word count. -/
theorem build_state_spec (st : RunState) (entry : String × SubMeta)
    (s : SubchapterDraftState)
    (h : build_subchapter_state st entry = Except.ok s) :
    (s.status = "ready" ↔ s.iterations ≠ [] ∧ s.outstanding_feedback = []) ∧
    (s.status = "in_review" ↔ s.iterations ≠ [] ∧ s.outstanding_feedback ≠ []) ∧
    (s.status = "draft" ↔ s.iterations = []) ∧
    (∀ item ∈ s.outstanding_feedback, item.addressed = false) ∧
    (s.final_word_count = (alistLookup st.word_counts entry.1).getD none) ∧
    (alistLookup st.iterations_map entry.1 = some s.iterations) := by
  unfold build_subchapter_state at h
  cases h1 : alistLookup st.iterations_map entry.1 with
  | none => rw [h1] at h; exact absurd h (by simp)
  | some iterations =>
      cases h2 : alistLookup st.feedback_map entry.1 with
      | none => rw [h1, h2] at h; exact absurd h (by simp)
      | some all_feedback =>
          rw [h1, h2] at h
          have hs := (Except.ok.inj h).symm
          subst hs
          simp only
          have hstat := status_cases iterations
            (all_feedback.filter (fun item => item.addressed = false))
          refine ⟨hstat.1, hstat.2.1, hstat.2.2, ?_, trivial, trivial⟩
          intro item hitem
          have := (List.mem_filter.mp hitem).2
          exact of_decide_eq_true this

/-- Helper: inverting a successful batch assembly. -/
theorem finalize_ok_inv (project_uuid cycle_count : Nat)
    (meta_lookup : List (String × SubMeta)) (st : RunState)
    (batch : WritingBatch)
    (h : finalize_writing_batch project_uuid cycle_count meta_lookup st =
      Except.ok batch) :
    ∃ states, (sortMeta meta_lookup).mapM (build_subchapter_state st) =
        Except.ok states ∧
      batch =
        { project_id := project_uuid
          cycle_count := cycle_count
          readiness :=
            if states.all (fun s => s.status = "ready") then "ready"
            else "draft"
          summary :=
            if String.intercalate "\n\n"
                (st.summary_parts.filter (fun p => p ≠ "")) = "" then none
            else some (String.intercalate "\n\n"
              (st.summary_parts.filter (fun p => p ≠ "")))
          subchapters := states
          total_word_count :=
            if total_word_count_acc st (sortMeta meta_lookup) = 0 then none
            else some (total_word_count_acc st (sortMeta meta_lookup)) } := by
  unfold finalize_writing_batch at h
  rw [except_bind_ok] at h
  obtain ⟨states, h1, h2⟩ := h
  refine ⟨states, h1, ?_⟩
  simp only [pure, Except.pure] at h2
  exact (Except.ok.inj h2).symm

/-- Helper: inverting a successful core run into its three phases. -/
theorem run_core_ok_inv (project_uuid fresh : Nat)
    (meta : List SubchapterMetaItem) (ccraw : Option Int)
    (wb : WriterDraftBatch)
    (co : List (CritiqueBatch × ImplementationBatch)) (batch : WritingBatch)
    (h : writing_run_core project_uuid fresh meta ccraw wb co =
      Except.ok batch) :
    ∃ st1 st3 : RunState,
      wb.subchapters.foldlM (record_writer_entry project_uuid)
        (writing_initial_state (build_meta_lookup meta) fresh) =
          Except.ok st1 ∧
      run_cycles project_uuid co 0 (max 1 (min 3 (pyOrIntD ccraw 3))).toNat
        (writer_overview_update wb st1) = Except.ok st3 ∧
      finalize_writing_batch project_uuid
        (max 1 (min 3 (pyOrIntD ccraw 3))).toNat (build_meta_lookup meta)
        st3 = Except.ok batch := by
  simp only [writing_run_core] at h
  split at h
  · unfold writing_run_phases at h
    rw [except_bind_ok] at h
    obtain ⟨st1, h1, h⟩ := h
    rw [except_bind_ok] at h
    obtain ⟨st3, h2, h3⟩ := h
    exact ⟨st1, st3, h1, h2, h3⟩
  · exact absurd h (by simp)

/-- C1: at the end of every successful writing run, each returned
subchapter state has status ready iff it has at least one iteration and
no outstanding (unaddressed) feedback, in_review iff it has iterations
with outstanding feedback, and draft iff it has no iterations at all;
the outstanding list holds exactly unaddressed items; and the batch is
ready iff every subchapter is ready. -/
theorem writing_status_readiness_correct :
    ∀ (payload : WritingPayload) (wb : WriterDraftBatch)
      (co : List (CritiqueBatch × ImplementationBatch)) (fresh : Nat)
      (batch : WritingBatch),
      generate_writing_batch payload wb co fresh = Except.ok batch →
      (∀ s ∈ batch.subchapters,
        (s.status = "ready" ↔
          s.iterations ≠ [] ∧ s.outstanding_feedback = []) ∧
        (s.status = "in_review" ↔
          s.iterations ≠ [] ∧ s.outstanding_feedback ≠ []) ∧
        (s.status = "draft" ↔ s.iterations = []) ∧
        (∀ item ∈ s.outstanding_feedback, item.addressed = false)) ∧
      (batch.readiness = "ready" ↔
        ∀ s ∈ batch.subchapters, s.status = "ready") := by
  intro payload wb co fresh batch h
  obtain ⟨st1, st3, h1, h2, h3⟩ := run_core_ok_inv _ _ _ _ _ _ _ h
  obtain ⟨states, hmap, hbatch⟩ := finalize_ok_inv _ _ _ _ _ h3
  subst hbatch
  constructor
  · intro s hs
    have hf2 := mapM_ok_forall2 _ _ _ hmap
    obtain ⟨e, _, hfe⟩ := forall2_mem_right hf2 s hs
    have hspec := build_state_spec st3 e s hfe
    exact ⟨hspec.1, hspec.2.1, hspec.2.2.1, hspec.2.2.2.1⟩
  · simp only
    constructor
    · intro hr s hs
      by_cases hall : states.all (fun s => s.status = "ready") = true
      · exact of_decide_eq_true (List.all_eq_true.mp hall s hs)
      · rw [if_neg hall] at hr
        exact absurd hr (by decide)
    · intro hall
      have hb : states.all (fun s => s.status = "ready") = true :=
        List.all_eq_true.mpr (fun s hs => decide_eq_true (hall s hs))
      rw [if_pos hb]

/-- Witness for `writing_status_readiness_correct`: scenario A — the
critic's single feedback item is resolved by the implementer, so the
subchapter and the batch end ready. -/
theorem writing_status_readiness_correct_witness :
    (∀ s ∈ scenarioABatch.subchapters,
      (s.status = "ready" ↔
        s.iterations ≠ [] ∧ s.outstanding_feedback = []) ∧
      (s.status = "in_review" ↔
        s.iterations ≠ [] ∧ s.outstanding_feedback ≠ []) ∧
      (s.status = "draft" ↔ s.iterations = []) ∧
      (∀ item ∈ s.outstanding_feedback, item.addressed = false)) ∧
    (scenarioABatch.readiness = "ready" ↔
      ∀ s ∈ scenarioABatch.subchapters, s.status = "ready") :=
  writing_status_readiness_correct payloadA writerA [(criticA, implementerA)]
    0 scenarioABatch rfl

/-- Helper: the running total accumulates, per subchapter, its stored
word count with `None` (and the skipped `0`) contributing zero. -/
theorem total_acc_general (st : RunState) :
    ∀ (l : List (String × SubMeta)) (a : Nat),
      l.foldl
        (fun acc entry =>
          let wc := (alistLookup st.word_counts entry.1).getD none
          if wc.getD 0 ≠ 0 then acc + wc.getD 0 else acc) a =
        a + (l.map
          (fun e => ((alistLookup st.word_counts e.1).getD none).getD 0)).sum := by
  intro l
  induction l with
  | nil => intro a; simp
  | cons e rest ih =>
      intro a
      simp only [List.foldl_cons, List.map_cons, List.sum_cons]
      by_cases h0 : ((alistLookup st.word_counts e.1).getD none).getD 0 = 0
      · rw [if_neg (fun hne => hne h0), ih, h0]
        omega
      · rw [if_pos h0, ih]
        omega

/-- C9 (amended): the returned `WritingBatch` carries a total word
count equal to the sum over subchapters of the latest recorded
word_count with null counts contributing 0 — except that a zero sum is
returned as null: the total is null exactly when the sum is zero,
which includes runs where subchapters did report (zero) word counts. -/
theorem total_word_count_amended :
    ∀ (payload : WritingPayload) (wb : WriterDraftBatch)
      (co : List (CritiqueBatch × ImplementationBatch)) (fresh : Nat)
      (batch : WritingBatch),
      generate_writing_batch payload wb co fresh = Except.ok batch →
      batch.total_word_count =
        (if (batch.subchapters.map (fun s => s.final_word_count.getD 0)).sum = 0
          then none
          else some
            ((batch.subchapters.map (fun s => s.final_word_count.getD 0)).sum)) ∧
      (batch.total_word_count = none ↔
        (batch.subchapters.map (fun s => s.final_word_count.getD 0)).sum = 0) := by
  intro payload wb co fresh batch h
  obtain ⟨st1, st3, h1, h2, h3⟩ := run_core_ok_inv _ _ _ _ _ _ _ h
  obtain ⟨states, hmap, hbatch⟩ := finalize_ok_inv _ _ _ _ _ h3
  subst hbatch
  have hf2 := mapM_ok_forall2 _ _ _ hmap
  have hmapeq : states.map (fun s => s.final_word_count.getD 0) =
      (sortMeta (build_meta_lookup payload.subchapters)).map
        (fun e => ((alistLookup st3.word_counts e.1).getD none).getD 0) := by
    refine forall2_map_eq hf2 _ _ ?_
    intro e s hr
    rw [(build_state_spec st3 e s hr).2.2.2.2.1]
  have htot : total_word_count_acc st3
      (sortMeta (build_meta_lookup payload.subchapters)) =
      (states.map (fun s => s.final_word_count.getD 0)).sum := by
    rw [hmapeq]
    simpa [total_word_count_acc] using
      total_acc_general st3 (sortMeta (build_meta_lookup payload.subchapters)) 0
  simp only
  rw [htot]
  by_cases hz : (states.map (fun s => s.final_word_count.getD 0)).sum = 0 <;>
    simp [hz]

/-- C9 counterexample: the claim allows a null total only when no
subchapter reports a word count, but a run whose single subchapter
reports a word count of 0 still yields a null total (`total or None`). -/
theorem total_word_count_null_counterexample :
    Except.map
      (fun b : WritingBatch =>
        (b.total_word_count, b.subchapters.map (fun s => s.final_word_count)))
      (generate_writing_batch payloadA writerZero
        [(emptyCritique, emptyImplementation)] 0) =
      Except.ok ((none : Option Nat), [some 0]) ∧
    (some 0 : Option Nat) ≠ none := by
  exact ⟨rfl, by decide⟩

/-- Witness for `total_word_count_amended`: scenario A, whose single
subchapter ends with 130 words. -/
theorem total_word_count_amended_witness :
    scenarioABatch.total_word_count =
      (if (scenarioABatch.subchapters.map
            (fun s => s.final_word_count.getD 0)).sum = 0
        then none
        else some ((scenarioABatch.subchapters.map
          (fun s => s.final_word_count.getD 0)).sum)) ∧
    (scenarioABatch.total_word_count = none ↔
      (scenarioABatch.subchapters.map
        (fun s => s.final_word_count.getD 0)).sum = 0) :=
  total_word_count_amended payloadA writerA [(criticA, implementerA)] 0
    scenarioABatch rfl

/-- C3: a writing run proceeds past the writer pass only when the
drafted subchapter ids cover every requested id — a successful run
implies coverage — and whenever some requested id is missing from the
writer output, the engine raises `ProviderResponseError` (not a partial
run). -/
theorem writer_completeness_gate :
    (∀ (payload : WritingPayload) (wb : WriterDraftBatch)
      (co : List (CritiqueBatch × ImplementationBatch)) (fresh : Nat)
      (batch : WritingBatch),
      generate_writing_batch payload wb co fresh = Except.ok batch →
      ∀ k ∈ (build_meta_lookup payload.subchapters).map (fun p => p.1),
        k ∈ wb.subchapters.map (fun e => e.subchapter_id)) ∧
    (∀ (payload : WritingPayload) (wb : WriterDraftBatch)
      (co : List (CritiqueBatch × ImplementationBatch)) (fresh : Nat)
      (k : String),
      k ∈ (build_meta_lookup payload.subchapters).map (fun p => p.1) →
      k ∉ wb.subchapters.map (fun e => e.subchapter_id) →
      ∃ msg, generate_writing_batch payload wb co fresh =
        Except.error (EngineError.providerResponse msg)) := by
  have herr : ∀ (payload : WritingPayload) (wb : WriterDraftBatch)
      (co : List (CritiqueBatch × ImplementationBatch)) (fresh : Nat)
      (k : String),
      k ∈ (build_meta_lookup payload.subchapters).map (fun p => p.1) →
      k ∉ wb.subchapters.map (fun e => e.subchapter_id) →
      ∃ msg, generate_writing_batch payload wb co fresh =
        Except.error (EngineError.providerResponse msg) := by
    intro payload wb co fresh k hk hnk
    have hmemf : k ∈ ((build_meta_lookup payload.subchapters).map
        (fun p => p.1)).filter
        (fun k2 => ¬ (wb.subchapters.map
          (fun e => e.subchapter_id)).contains k2) := by
      refine List.mem_filter.mpr ⟨hk, ?_⟩
      simpa using hnk
    have hcond : (((build_meta_lookup payload.subchapters).map
        (fun p => p.1)).filter
        (fun k2 => ¬ (wb.subchapters.map
          (fun e => e.subchapter_id)).contains k2)).isEmpty = false := by
      rcases hempty : (((build_meta_lookup payload.subchapters).map
          (fun p => p.1)).filter
          (fun k2 => ¬ (wb.subchapters.map
            (fun e => e.subchapter_id)).contains k2)) with _ | _
      · rw [hempty] at hmemf; cases hmemf
      · rw [hempty]; rfl
    refine ⟨"Writing stage omitted drafts for subchapters: " ++
      String.intercalate ", " (sortStrings
        (((build_meta_lookup payload.subchapters).map (fun p => p.1)).filter
          (fun k2 => ¬ (wb.subchapters.map
            (fun e => e.subchapter_id)).contains k2))), ?_⟩
    simp only [generate_writing_batch, writing_run_core, hcond,
      Bool.false_eq_true, if_false]
  refine ⟨?_, herr⟩
  intro payload wb co fresh batch h k hk
  by_contra hnk
  obtain ⟨msg, hmsg⟩ := herr payload wb co fresh k hk hnk
  rw [h] at hmsg
  exact absurd hmsg (by simp)

/-- Witness for `writer_completeness_gate`: scenario A covers its one
requested subchapter; a writer output drafting only an unknown id makes
the run fail with `ProviderResponseError`. -/
theorem writer_completeness_gate_witness :
    ("s1" ∈ writerA.subchapters.map (fun e => e.subchapter_id)) ∧
    (∃ msg, generate_writing_batch payloadA writerWrong [] 0 =
      Except.error (EngineError.providerResponse msg)) := by
  constructor
  · exact writer_completeness_gate.1 payloadA writerA
      [(criticA, implementerA)] 0 scenarioABatch rfl "s1" (by decide)
  · exact writer_completeness_gate.2 payloadA writerWrong [] 0 "s1"
      (by decide) (by decide)

/-- Helper: a value-level invariant survives `alistModify` when the
update function preserves it. -/
theorem alistModify_value_inv {α : Type} (Q : α → Prop) (f : α → α)
    (hf : ∀ v, Q v → Q (f v)) :
    ∀ (m m2 : List (String × α)) (k : String),
      alistModify m k f = some m2 → (∀ p ∈ m, Q p.2) → ∀ p ∈ m2, Q p.2 := by
  intro m
  induction m with
  | nil =>
      intro m2 k h _
      exact absurd h (by simp [alistModify])
  | cons p0 rest ih =>
      intro m2 k h hm
      cases p0 with
      | mk k0 v0 =>
          by_cases hk : k0 = k
          · simp only [alistModify, if_pos hk] at h
            intro p hp
            rw [← Option.some.inj h] at hp
            rcases List.mem_cons.mp hp with h0 | h0
            · subst h0
              exact hf v0 (hm (k0, v0) (List.mem_cons_self _ _))
            · exact hm p (List.mem_cons_of_mem _ h0)
          · simp only [alistModify, if_neg hk] at h
            cases hr : alistModify rest k f with
            | none => rw [hr] at h; exact absurd h (by simp)
            | some r =>
                rw [hr] at h
                simp only [Option.map_some'] at h
                intro p hp
                rw [← Option.some.inj h] at hp
                rcases List.mem_cons.mp hp with h0 | h0
                · subst h0
                  exact hm (k0, v0) (List.mem_cons_self _ _)
                · exact ih r k hr
                    (fun q hq => hm q (List.mem_cons_of_mem _ hq)) p h0

/-- Helper: appending an iteration stamped with the run's project id
preserves the all-iterations-stamped invariant. -/
theorem append_iter_inv (pid : Nat) (iter : DraftIteration)
    (hiter : iter.project_id = pid) :
    ∀ l : List DraftIteration, (∀ it ∈ l, it.project_id = pid) →
      ∀ it ∈ l ++ [iter], it.project_id = pid := by
  intro l hl it hit
  rcases List.mem_append.mp hit with h0 | h0
  · exact hl it h0
  · rcases List.mem_singleton.mp h0 with rfl
    exact hiter

/-- Helper: the writer-recording step stamps only the run's project id. -/
theorem record_writer_inv (pid : Nat) (st st2 : RunState)
    (entry : WriterDraftEntry)
    (h : record_writer_entry pid st entry = Except.ok st2)
    (hst : ∀ p ∈ st.iterations_map, ∀ it ∈ p.2, it.project_id = pid) :
    ∀ p ∈ st2.iterations_map, ∀ it ∈ p.2, it.project_id = pid := by
  simp only [record_writer_entry] at h
  cases hm : alistModify st.iterations_map entry.subchapter_id
      (fun l => l ++
        [{ id := st.fresh
           project_id := pid
           subchapter_id := entry.subchapter_id
           cycle := 0
           role := AgentRole.writer_initial
           content := entry.content.trim
           summary := entry.summary
           word_count := entry.word_count
           feedback := [] }]) with
  | none => rw [hm] at h; exact absurd h (by simp)
  | some im =>
      rw [hm] at h
      have h2 := Except.ok.inj h
      have him : st2.iterations_map = im := by rw [← h2]
      rw [him]
      exact alistModify_value_inv _ _ (append_iter_inv pid _ rfl) _ _ _ hm hst

/-- Helper: the critic-recording step stamps only the run's project id. -/
theorem record_critic_inv (pid cycle_index : Nat) (st st2 : RunState)
    (entry : CritiqueEntry)
    (h : record_critic_entry pid cycle_index st entry = Except.ok st2)
    (hst : ∀ p ∈ st.iterations_map, ∀ it ∈ p.2, it.project_id = pid) :
    ∀ p ∈ st2.iterations_map, ∀ it ∈ p.2, it.project_id = pid := by
  simp only [record_critic_entry] at h
  cases hfm : alistModify st.feedback_map entry.subchapter_id
      (fun l => l ++ (mk_feedback_items st.fresh entry.feedback).1) with
  | none => rw [hfm] at h; exact absurd h (by simp)
  | some fm =>
      rw [hfm] at h
      cases him : alistModify st.iterations_map entry.subchapter_id
          (fun l => l ++
            [{ id := (mk_feedback_items st.fresh entry.feedback).2
               project_id := pid
               subchapter_id := entry.subchapter_id
               cycle := cycle_index
               role := critic_role_at cycle_index
               content := entry.overview.trim
               summary := none
               word_count := none
               feedback := (mk_feedback_items st.fresh entry.feedback).1 }]) with
      | none => rw [him] at h; exact absurd h (by simp)
      | some im =>
          rw [him] at h
          have h2 := Except.ok.inj h
          have himap : st2.iterations_map = im := by rw [← h2]
          rw [himap]
          exact alistModify_value_inv _ _ (append_iter_inv pid _ rfl) _ _ _
            him hst

/-- Helper: the implementer-recording step stamps only the run's
project id. -/
theorem record_implementation_inv (pid cycle_index : Nat)
    (st st2 : RunState) (entry : ImplementationEntry)
    (h : record_implementation_entry pid cycle_index st entry = Except.ok st2)
    (hst : ∀ p ∈ st.iterations_map, ∀ it ∈ p.2, it.project_id = pid) :
    ∀ p ∈ st2.iterations_map, ∀ it ∈ p.2, it.project_id = pid := by
  simp only [record_implementation_entry] at h
  split at h
  · exact absurd h (by simp)
  · split at h
    · exact absurd h (by simp)
    · rename_i items hitems im him
      have h2 := Except.ok.inj h
      have himap : st2.iterations_map = im := by rw [← h2]
      rw [himap]
      exact alistModify_value_inv _ _ (append_iter_inv pid _ rfl) _ _ _
        him hst

/-- Helper: one full cycle stamps only the run's project id. -/
theorem run_cycle_inv (pid cycle_index : Nat) (cb : CritiqueBatch)
    (ib : ImplementationBatch) (st st3 : RunState)
    (h : run_cycle pid cycle_index cb ib st = Except.ok st3)
    (hst : ∀ p ∈ st.iterations_map, ∀ it ∈ p.2, it.project_id = pid) :
    ∀ p ∈ st3.iterations_map, ∀ it ∈ p.2, it.project_id = pid := by
  simp only [run_cycle] at h
  rw [except_bind_ok] at h
  obtain ⟨st1, h1, h⟩ := h
  rw [except_bind_ok] at h
  obtain ⟨st2i, h2, h3⟩ := h
  have hst1 := foldlM_ok_invariant (record_critic_entry pid cycle_index)
    (fun s => ∀ p ∈ s.iterations_map, ∀ it ∈ p.2, it.project_id = pid)
    (fun b a b2 hb hab => record_critic_inv pid cycle_index b b2 a hab hb)
    cb.subchapters st st1 h1 hst
  have hst2 := foldlM_ok_invariant (record_implementation_entry pid cycle_index)
    (fun s => ∀ p ∈ s.iterations_map, ∀ it ∈ p.2, it.project_id = pid)
    (fun b a b2 hb hab => record_implementation_inv pid cycle_index b b2 a hab hb)
    ib.subchapters _ st2i h2 hst1
  have h4 := Except.ok.inj h3
  have h5 : st3.iterations_map = st2i.iterations_map := by rw [← h4]
  rw [h5]
  exact hst2

/-- Helper: the whole cycle loop stamps only the run's project id. -/
theorem run_cycles_inv (pid : Nat) :
    ∀ (remaining : Nat) (outputs : List (CritiqueBatch × ImplementationBatch))
      (cycle_index : Nat) (st st2 : RunState),
      run_cycles pid outputs cycle_index remaining st = Except.ok st2 →
      (∀ p ∈ st.iterations_map, ∀ it ∈ p.2, it.project_id = pid) →
      ∀ p ∈ st2.iterations_map, ∀ it ∈ p.2, it.project_id = pid := by
  intro remaining
  induction remaining with
  | zero =>
      intro outputs cycle_index st st2 h hst
      simp only [run_cycles] at h
      rw [← Except.ok.inj h]
      exact hst
  | succ r ih =>
      intro outputs cycle_index st st2 h hst
      cases outputs with
      | nil =>
          simp only [run_cycles] at h
          exact absurd h (by simp)
      | cons pair rest =>
          cases pair with
          | mk cb ib =>
              simp only [run_cycles] at h
              rw [except_bind_ok] at h
              obtain ⟨st1, h1, h2⟩ := h
              exact ih rest (cycle_index + 1) st1 st2 h2
                (run_cycle_inv pid cycle_index cb ib st st1 h1 hst)

/-- Helper: a successful association-list lookup comes from a stored
pair. -/
theorem alistLookup_some_exists {α : Type} (m : List (String × α))
    (k : String) (v : α) (h : alistLookup m k = some v) :
    ∃ p ∈ m, p.2 = v := by
  unfold alistLookup at h
  cases hf : m.find? (fun p => p.1 = k) with
  | none => rw [hf] at h; exact absurd h (by simp)
  | some pair =>
      rw [hf] at h
      exact ⟨pair, List.mem_of_find?_eq_some hf,
        Option.some.inj (by simpa using h)⟩

/-- Helper: every iteration of a successful core run carries the
resolved project id, and so does the batch. -/
theorem run_core_project_id (pid fresh : Nat)
    (meta : List SubchapterMetaItem) (ccraw : Option Int)
    (wb : WriterDraftBatch)
    (co : List (CritiqueBatch × ImplementationBatch)) (batch : WritingBatch)
    (h : writing_run_core pid fresh meta ccraw wb co = Except.ok batch) :
    batch.project_id = pid ∧
    ∀ s ∈ batch.subchapters, ∀ it ∈ s.iterations, it.project_id = pid := by
  obtain ⟨st1, st3, h1, h2, h3⟩ := run_core_ok_inv _ _ _ _ _ _ _ h
  have hst0 : ∀ p ∈ (writing_initial_state (build_meta_lookup meta)
      fresh).iterations_map, ∀ it ∈ p.2, it.project_id = pid := by
    intro p hp it hit
    simp only [writing_initial_state, List.mem_map] at hp
    obtain ⟨q, _, hq⟩ := hp
    rw [← hq] at hit
    cases hit
  have hst1 := foldlM_ok_invariant (record_writer_entry pid)
    (fun s => ∀ p ∈ s.iterations_map, ∀ it ∈ p.2, it.project_id = pid)
    (fun b a b2 hb hab => record_writer_inv pid b b2 a hab hb)
    wb.subchapters _ st1 h1 hst0
  have hst2 : ∀ p ∈ (writer_overview_update wb st1).iterations_map,
      ∀ it ∈ p.2, it.project_id = pid := hst1
  have hst3 := run_cycles_inv pid _ co 0 _ st3 h2 hst2
  obtain ⟨states, hmap, hbatch⟩ := finalize_ok_inv _ _ _ _ _ h3
  subst hbatch
  refine ⟨rfl, ?_⟩
  intro s hs it hit
  have hf2 := mapM_ok_forall2 _ _ _ hmap
  obtain ⟨e, _, hfe⟩ := forall2_mem_right hf2 s hs
  have hlook := (build_state_spec st3 e s hfe).2.2.2.2.2
  obtain ⟨p, hp, hpv⟩ := alistLookup_some_exists _ _ _ hlook
  exact hst3 p hp it (by rw [hpv]; exact hit)

/-- C10: a writing payload whose project id is missing or unparseable
(modelled as a `none` parse result) never fails on that account — the
run is the same run with a freshly drawn uuid substituted as project id
— and that fresh uuid becomes the project id of the returned batch and
of every recorded iteration, so two runs on the same payload seeded
with different fresh uuids return different project ids. -/
theorem missing_project_id_fresh_uuid :
    ∀ (payload : WritingPayload) (wb : WriterDraftBatch)
      (co : List (CritiqueBatch × ImplementationBatch)) (fresh : Nat),
      payload.project_id = none →
      (generate_writing_batch payload wb co fresh =
        generate_writing_batch { payload with project_id := some fresh }
          wb co (fresh + 1)) ∧
      (∀ batch, generate_writing_batch payload wb co fresh = Except.ok batch →
        batch.project_id = fresh ∧
        ∀ s ∈ batch.subchapters, ∀ it ∈ s.iterations,
          it.project_id = fresh) ∧
      (∀ fresh2 batch batch2, fresh ≠ fresh2 →
        generate_writing_batch payload wb co fresh = Except.ok batch →
        generate_writing_batch payload wb co fresh2 = Except.ok batch2 →
        batch.project_id ≠ batch2.project_id) := by
  intro payload wb co fresh hnone
  refine ⟨?_, ?_, ?_⟩
  · simp [generate_writing_batch, resolve_project_id, hnone]
  · intro batch h
    have hcore : writing_run_core fresh (fresh + 1) payload.subchapters
        payload.cycle_count wb co = Except.ok batch := by
      rw [← h]
      simp [generate_writing_batch, resolve_project_id, hnone]
    exact run_core_project_id _ _ _ _ _ _ _ hcore
  · intro fresh2 batch batch2 hne h1 h2
    have hb1 : batch.project_id = fresh := by
      have hcore : writing_run_core fresh (fresh + 1) payload.subchapters
          payload.cycle_count wb co = Except.ok batch := by
        rw [← h1]
        simp [generate_writing_batch, resolve_project_id, hnone]
      exact (run_core_project_id _ _ _ _ _ _ _ hcore).1
    have hb2 : batch2.project_id = fresh2 := by
      have hcore : writing_run_core fresh2 (fresh2 + 1) payload.subchapters
          payload.cycle_count wb co = Except.ok batch2 := by
        rw [← h2]
        simp [generate_writing_batch, resolve_project_id, hnone]
      exact (run_core_project_id _ _ _ _ _ _ _ hcore).1
    rw [hb1, hb2]
    exact hne

/-- Witness for `missing_project_id_fresh_uuid`: a run seeded with
fresh uuid 5 on a payload with unparseable project id. -/
theorem missing_project_id_fresh_uuid_witness :
    (generate_writing_batch payloadNoId writerA
        [(emptyCritique, emptyImplementation)] 5 =
      generate_writing_batch { payloadNoId with project_id := some 5 }
        writerA [(emptyCritique, emptyImplementation)] 6) ∧
    (∀ batch, generate_writing_batch payloadNoId writerA
        [(emptyCritique, emptyImplementation)] 5 = Except.ok batch →
      batch.project_id = 5 ∧
      ∀ s ∈ batch.subchapters, ∀ it ∈ s.iterations, it.project_id = 5) ∧
    (∀ fresh2 batch batch2, 5 ≠ fresh2 →
      generate_writing_batch payloadNoId writerA
        [(emptyCritique, emptyImplementation)] 5 = Except.ok batch →
      generate_writing_batch payloadNoId writerA
        [(emptyCritique, emptyImplementation)] fresh2 = Except.ok batch2 →
      batch.project_id ≠ batch2.project_id) :=
  missing_project_id_fresh_uuid payloadNoId writerA
    [(emptyCritique, emptyImplementation)] 5 rfl

/-- C2 counterexample: the claim says an addressed feedback item is
immutable for the rest of the run, but when a later implementer pass
re-reports an already addressed id, the engine clears and re-stamps its
`addressed_in_iteration`. In this two-cycle run, item 1 is addressed by
implementer iteration 3 in cycle 1, yet the cycle-2 implementer's
snapshot shows it re-stamped with iteration 4. -/
theorem feedback_restamp_counterexample :
    Except.map (fun b : WritingBatch =>
        b.subchapters.map (fun s => s.iterations.map (fun it =>
          (it.id, it.role, it.feedback.map
            (fun f => (f.id, f.addressed, f.addressed_in_iteration))))))
      (generate_writing_batch payloadC2 writerA
        [(criticA, implementerA), (emptyCritique, implementerC2b)] 0) =
      Except.ok
        [[(0, AgentRole.writer_initial, []),
          (2, AgentRole.writing_critic_i, [(1, false, none)]),
          (3, AgentRole.writing_implementation_i, [(1, true, some 3)]),
          (4, AgentRole.writing_implementation_ii, [(1, true, some 4)])]] ∧
    (some 3 : Option Nat) ≠ some 4 := by
  exact ⟨rfl, by decide⟩

/-- C2 (amended): each critic pass creates feedback items unaddressed,
unstamped, with fresh consecutive engine-assigned ids (the critic
schema has no id field, so ids can never come from the model); an
implementer pass reporting resolved ids marks exactly the reported ids
that exist in the list as addressed and stamps them with that
implementer iteration's id, leaving all other items unchanged —
provided every previously addressed item carries its stamp, which the
run maintains; and the addressed flag never reverts. A later pass that
re-reports an already addressed id therefore re-stamps it, which is the
one departure from the claim. -/
theorem feedback_lifecycle_amended :
    (∀ (fresh : Nat) (fbs : List CritiqueFeedback),
      (mk_feedback_items fresh fbs).1.map (fun it => it.id) =
        List.range' fresh fbs.length ∧
      (mk_feedback_items fresh fbs).2 = fresh + fbs.length ∧
      ∀ it ∈ (mk_feedback_items fresh fbs).1,
        it.addressed = false ∧ it.addressed_in_iteration = none) ∧
    (∀ (resolved : List Nat) (iteration_id : Nat)
      (items : List DraftFeedbackItem),
      (∀ it ∈ items, it.addressed = true → it.addressed_in_iteration ≠ none) →
      stamp_resolution iteration_id (apply_resolution resolved items) =
        items.map (fun it =>
          if it.id ∈ resolved then
            { it with
                addressed := true
                addressed_in_iteration := some iteration_id }
          else it)) ∧
    (∀ (resolved : List Nat) (iteration_id : Nat)
      (items : List DraftFeedbackItem),
      List.Forall₂ (fun a b => a.addressed = true → b.addressed = true)
        items (stamp_resolution iteration_id (apply_resolution resolved items))) := by
  refine ⟨?_, ?_, ?_⟩
  · intro fresh fbs
    induction fbs generalizing fresh with
    | nil => exact ⟨rfl, rfl, fun it hit => absurd hit (by simp [mk_feedback_items])⟩
    | cons fb rest ih =>
        obtain ⟨ih1, ih2, ih3⟩ := ih (fresh + 1)
        cases hmk : mk_feedback_items (fresh + 1) rest with
        | mk items fresh1 =>
            rw [hmk] at ih1 ih2 ih3
            refine ⟨?_, ?_, ?_⟩
            · simp only [mk_feedback_items, hmk, List.map_cons]
              rw [ih1]
              rfl
            · simp only [mk_feedback_items, hmk, List.length_cons]
              omega
            · intro it hit
              simp only [mk_feedback_items, hmk, List.mem_cons] at hit
              rcases hit with h0 | h0
              · subst h0
                exact ⟨rfl, rfl⟩
              · exact ih3 it h0
  · intro resolved iteration_id items h
    induction items with
    | nil => rfl
    | cons a rest ih =>
        have hrest := ih (fun it hit ha =>
          h it (List.mem_cons_of_mem _ hit) ha)
        simp only [apply_resolution, stamp_resolution, List.map_cons] at hrest ⊢
        by_cases hid : a.id ∈ resolved
        · rw [if_pos hid, if_pos hid]
          rw [if_pos (by exact ⟨rfl, rfl⟩)]
          exact congrArg _ hrest
        · rw [if_neg hid, if_neg hid]
          have hcond : ¬(a.addressed = true ∧ a.addressed_in_iteration = none) := by
            rintro ⟨ha, hn⟩
            exact h a (List.mem_cons_self _ _) ha hn
          rw [if_neg hcond]
          exact congrArg _ hrest
  · intro resolved iteration_id items
    induction items with
    | nil => exact List.Forall₂.nil
    | cons a rest ih =>
        simp only [apply_resolution, stamp_resolution, List.map_cons]
        refine List.Forall₂.cons ?_ ih
        by_cases hid : a.id ∈ resolved
        · rw [if_pos hid]
          intro _
          by_cases hcond : ({ a with
              addressed := true
              addressed_in_iteration := none } : DraftFeedbackItem).addressed =
                true ∧
              ({ a with
                addressed := true
                addressed_in_iteration := none } :
                  DraftFeedbackItem).addressed_in_iteration = none
          · rw [if_pos hcond]
          · rw [if_neg hcond]
        · rw [if_neg hid]
          intro ha
          by_cases hcond : a.addressed = true ∧ a.addressed_in_iteration = none
          · rw [if_pos hcond]
            exact ha
          · rw [if_neg hcond]
            exact ha

/-- Witness for `feedback_lifecycle_amended`: the implementer update at
a concrete feedback list containing one open and one addressed-stamped
item, resolving id 1 with iteration 9. -/
theorem feedback_lifecycle_amended_witness :
    stamp_resolution 9 (apply_resolution [1] feedbackItemsW) =
      feedbackItemsW.map (fun it =>
        if it.id ∈ [1] then
          { it with addressed := true, addressed_in_iteration := some 9 }
        else it) :=
  feedback_lifecycle_amended.2.1 [1] 9 feedbackItemsW (by decide)
